/-
  Shallow embedding of the AgentCI test-execution core (TypeScript) in Lean 4,
  together with theorems settling the specification claims about it.

  Modelling conventions, used throughout:
  * JavaScript strings are Lean `String`s (sequences of characters; the
    UTF-16 code-unit view is irrelevant to every property proved here).
  * A thrown JavaScript exception is `Except.error msg`; a normal return is
    `Except.ok`.  `async` functions that can only reject with an `Error` are
    `Except String α`.
  * JSON values are the inductive `Json` below.  JavaScript numbers are
    modelled as arbitrary-precision integers: every numeric literal appearing
    in the repository's configs, tests and demo data is a small integer, and
    IEEE-754 rounding is out of scope of the embedding (noted where relevant).
  * Ambient platform capabilities (the RegExp engine, the Ajv schema
    validator, `fetch` to the two hosted judge endpoints, and the two hosted
    chat-provider constructors) are parameters collected in `Platform`;
    process environment variables read by the judge are the `JudgeEnv`
    record.  Wall-clock time (`Date.now()`) is ambient as well; `duration`
    fields are modelled as 0.
-/
import Mathlib

set_option maxHeartbeats 1000000
set_option maxRecDepth 8000

namespace AgentCI

/-! ## JavaScript string primitives -/

/-- The ASCII part of the JavaScript whitespace class `\s`
    (space, tab, line feed, carriage return, vertical tab, form feed).
    Unicode whitespace is outside the modelled character repertoire. -/
def jsIsWs (c : Char) : Bool :=
  c == ' ' || c == '\t' || c == '\n' || c == '\r' || c == '\x0b' || c == '\x0c'

/-- ASCII lowercasing of one character (the `toLowerCase` relevant to the
    repository's data; non-ASCII case mapping is out of scope). -/
def asciiLowerChar (c : Char) : Char :=
  if 65 ≤ c.toNat && c.toNat ≤ 90 then Char.ofNat (c.toNat + 32) else c

/-- `String.prototype.toLowerCase`, ASCII fragment. -/
def asciiLower (s : String) : String :=
  String.mk (s.data.map asciiLowerChar)

/-- Does the second list start with the first? -/
def listStartsWith : List Char → List Char → Bool
  | [], _ => true
  | _ :: _, [] => false
  | a :: as, b :: bs => a == b && listStartsWith as bs

/-- Does the second list contain the first as a contiguous subsequence? -/
def listContainsSeq (needle : List Char) : List Char → Bool
  | [] => needle.isEmpty
  | c :: t => listStartsWith needle (c :: t) || listContainsSeq needle t

/-- `String.prototype.includes`. -/
def jsIncludes (hay needle : String) : Bool :=
  listContainsSeq needle.data hay.data

/-- `String.prototype.startsWith`. -/
def jsStartsWith (hay needle : String) : Bool :=
  listStartsWith needle.data hay.data

/-- `String.prototype.endsWith`. -/
def jsEndsWith (hay needle : String) : Bool :=
  listStartsWith needle.data.reverse hay.data.reverse

/-- `String.prototype.trimStart` (whitespace as in `jsIsWs`). -/
def jsTrimStart (s : String) : String :=
  String.mk (s.data.dropWhile jsIsWs)

/-- `String.prototype.trimEnd`. -/
def jsTrimEnd (s : String) : String :=
  String.mk ((s.data.reverse.dropWhile jsIsWs).reverse)

/-- `s.slice(0, n)` on a string (also `.slice(0, n)` of template results). -/
def strTake (s : String) (n : Nat) : String :=
  String.mk (s.data.take n)

/-- `Array.prototype.join(sep)` on a list of strings. -/
def sepJoin (sep : String) : List String → String
  | [] => ""
  | [a] => a
  | a :: b :: rest => a ++ sep ++ sepJoin sep (b :: rest)

/-- Truthiness of an optional string environment variable or field:
    `undefined` and the empty string are falsy (JavaScript `!x`). -/
def strTruthy : Option String → Bool
  | none => false
  | some s => !s.isEmpty

/-- JavaScript `a || b` for an optional/defaultable string `a`. -/
def jsOrStr (a : Option String) (b : String) : String :=
  match a with
  | some s => if s.isEmpty then b else s
  | none => b

/-- JavaScript `a || b` where both sides are optional strings
    (`test.base_url || defaults.base_url`). -/
def jsOrOptStr (a b : Option String) : Option String :=
  if strTruthy a then a else b

/-- JavaScript `a ?? b ?? d` for optional integers (nullish coalescing:
    `0` does NOT fall through). -/
def jsCoalesceInt (a b : Option Int) (d : Int) : Int :=
  match a with
  | some n => n
  | none => match b with
    | some n => n
    | none => d

/-! ## Word counting and token estimation (src/assertions/tokens.ts) -/

/-- Number of maximal nonempty runs of non-whitespace characters: exactly
    `text.split(/\s+/).filter((w) => w.length > 0).length`. The flag records
    whether the previous character was inside a word. -/
def wordCountAux : Bool → List Char → Nat
  | _, [] => 0
  | inWord, c :: t =>
    if jsIsWs c then wordCountAux false t
    else (if inWord then 0 else 1) + wordCountAux true t

/-- Whitespace-delimited nonempty word count of a string. -/
def countWords (s : String) : Nat :=
  wordCountAux false s.data

/-- `estimateTokens` from src/assertions/tokens.ts:
    `Math.ceil(words / 0.75)`.  0.75 is exactly 3/4 in IEEE-754 and for every
    word count arising from a string (far below 2^50) the double division is
    close enough to the exact rational that the ceiling agrees with the exact
    ceiling; the embedding computes the exact rational ceiling. -/
def estimateTokens (text : String) : Nat :=
  Nat.ceil ((countWords text : ℚ) / (3 / 4 : ℚ))

/-! ## JSON values -/

/-- JSON values (= the runtime objects the core manipulates).  Object fields
    are an ordered association list, mirroring JavaScript property order;
    numbers are modelled as integers (see the header note). -/
inductive Json where
  | null : Json
  | bool (b : Bool) : Json
  | num (n : Int) : Json
  | str (s : String) : Json
  | arr (elems : List Json) : Json
  | obj (fields : List (String × Json)) : Json
deriving Inhabited

mutual

/-- Structural decidable equality for `Json`. -/
def jsonDecEq : (a b : Json) → Decidable (a = b)
  | .null, .null => isTrue rfl
  | .bool a, .bool b =>
    match decEq a b with
    | isTrue h => isTrue (by rw [h])
    | isFalse h => isFalse (by intro hh; cases hh; exact h rfl)
  | .num a, .num b =>
    match decEq a b with
    | isTrue h => isTrue (by rw [h])
    | isFalse h => isFalse (by intro hh; cases hh; exact h rfl)
  | .str a, .str b =>
    match decEq a b with
    | isTrue h => isTrue (by rw [h])
    | isFalse h => isFalse (by intro hh; cases hh; exact h rfl)
  | .arr a, .arr b =>
    match jsonListDecEq a b with
    | isTrue h => isTrue (by rw [h])
    | isFalse h => isFalse (by intro hh; cases hh; exact h rfl)
  | .obj a, .obj b =>
    match jsonFieldsDecEq a b with
    | isTrue h => isTrue (by rw [h])
    | isFalse h => isFalse (by intro hh; cases hh; exact h rfl)
  | .null, .bool _ | .null, .num _ | .null, .str _ | .null, .arr _ | .null, .obj _
  | .bool _, .null | .bool _, .num _ | .bool _, .str _ | .bool _, .arr _ | .bool _, .obj _
  | .num _, .null | .num _, .bool _ | .num _, .str _ | .num _, .arr _ | .num _, .obj _
  | .str _, .null | .str _, .bool _ | .str _, .num _ | .str _, .arr _ | .str _, .obj _
  | .arr _, .null | .arr _, .bool _ | .arr _, .num _ | .arr _, .str _ | .arr _, .obj _
  | .obj _, .null | .obj _, .bool _ | .obj _, .num _ | .obj _, .str _ | .obj _, .arr _ =>
    isFalse (by intro h; cases h)

/-- Decidable equality for lists of JSON values. -/
def jsonListDecEq : (a b : List Json) → Decidable (a = b)
  | [], [] => isTrue rfl
  | [], _ :: _ => isFalse (by intro h; cases h)
  | _ :: _, [] => isFalse (by intro h; cases h)
  | a :: as, b :: bs =>
    match jsonDecEq a b with
    | isTrue h1 =>
      match jsonListDecEq as bs with
      | isTrue h2 => isTrue (by rw [h1, h2])
      | isFalse h2 => isFalse (by intro hh; cases hh; exact h2 rfl)
    | isFalse h1 => isFalse (by intro hh; cases hh; exact h1 rfl)

/-- Decidable equality for JSON object field lists. -/
def jsonFieldsDecEq : (a b : List (String × Json)) → Decidable (a = b)
  | [], [] => isTrue rfl
  | [], _ :: _ => isFalse (by intro h; cases h)
  | _ :: _, [] => isFalse (by intro h; cases h)
  | (k1, v1) :: as, (k2, v2) :: bs =>
    match decEq k1 k2 with
    | isTrue hk =>
      match jsonDecEq v1 v2 with
      | isTrue hv =>
        match jsonFieldsDecEq as bs with
        | isTrue ht => isTrue (by rw [hk, hv, ht])
        | isFalse ht => isFalse (by intro hh; cases hh; exact ht rfl)
      | isFalse hv => isFalse (by intro hh; cases hh; exact hv rfl)
    | isFalse hk => isFalse (by intro hh; cases hh; exact hk rfl)

end

instance : DecidableEq Json := jsonDecEq

/-- JavaScript truthiness of a JSON value. -/
def jsTruthy : Json → Bool
  | .null => false
  | .bool b => b
  | .num n => n != 0
  | .str s => !s.isEmpty
  | .arr _ => true
  | .obj _ => true

/-- Truthiness of a possibly-`undefined` value. -/
def jsTruthyOpt : Option Json → Bool
  | none => false
  | some v => jsTruthy v

mutual

/-- JavaScript `String(v)` of a runtime value. -/
def jsToString : Json → String
  | .null => "null"
  | .bool b => if b then "true" else "false"
  | .num n => toString n
  | .str s => s
  | .arr xs => sepJoin "," (jsToStringElems xs)
  | .obj _ => "[object Object]"

/-- Elementwise stringification for `Array.prototype.toString` (a `null`
    element renders as the empty string). -/
def jsToStringElems : List Json → List String
  | [] => []
  | .null :: xs => "" :: jsToStringElems xs
  | x :: xs => jsToString x :: jsToStringElems xs

end

/-- One hexadecimal digit. -/
def hexDigitChar (n : Nat) : Char :=
  if n < 10 then Char.ofNat (48 + n) else Char.ofNat (87 + (n % 16))

/-- Four-digit lowercase hex rendering used by `\u00XX` escapes. -/
def hex4 (n : Nat) : String :=
  String.mk [hexDigitChar (n / 4096 % 16), hexDigitChar (n / 256 % 16),
             hexDigitChar (n / 16 % 16), hexDigitChar (n % 16)]

/-- `JSON.stringify` escaping of one string character. -/
def escapeJsonChar (c : Char) : String :=
  if c == '"' then "\\\""
  else if c == '\\' then "\\\\"
  else if c == '\n' then "\\n"
  else if c == '\r' then "\\r"
  else if c == '\t' then "\\t"
  else if c == '\x08' then "\\b"
  else if c == '\x0c' then "\\f"
  else if c.toNat < 32 then "\\u" ++ hex4 c.toNat
  else String.singleton c

/-- `JSON.stringify` of a string (including the surrounding quotes). -/
def escapeJson (s : String) : String :=
  "\"" ++ String.join (s.data.map escapeJsonChar) ++ "\""

mutual

/-- `JSON.stringify(v)` (compact form, no spacing), for defined values. -/
def jsonStringify : Json → String
  | .null => "null"
  | .bool b => if b then "true" else "false"
  | .num n => toString n
  | .str s => escapeJson s
  | .arr xs => "[" ++ sepJoin "," (jsonStringifyElems xs) ++ "]"
  | .obj fs => "\x7b" ++ sepJoin "," (jsonStringifyFields fs) ++ "\x7d"

/-- Stringify the elements of an array. -/
def jsonStringifyElems : List Json → List String
  | [] => []
  | x :: xs => jsonStringify x :: jsonStringifyElems xs

/-- Stringify the fields of an object. -/
def jsonStringifyFields : List (String × Json) → List String
  | [] => []
  | (k, v) :: fs => (escapeJson k ++ ":" ++ jsonStringify v) :: jsonStringifyFields fs

end

/-! ## JSON parsing (`JSON.parse`)

A recursive-descent parser over the character list, with a fuel argument for
termination (fuel = input length always suffices: every recursive call
consumes at least one character).  The modelled fragment is full JSON minus
non-integer numeric literals (fraction/exponent parts are rejected, see the
header note) and minus surrogate-pair decoding of `\uXXXX` escapes. -/

/-- JSON structural whitespace. -/
def jsonIsWs (c : Char) : Bool :=
  c == ' ' || c == '\t' || c == '\n' || c == '\r'

/-- Skip JSON whitespace. -/
def jsonSkipWs (l : List Char) : List Char :=
  l.dropWhile jsonIsWs

/-- Decimal digit test. -/
def isDigitChar (c : Char) : Bool :=
  48 ≤ c.toNat && c.toNat ≤ 57

/-- Hex digit value. -/
def hexVal (c : Char) : Option Nat :=
  if 48 ≤ c.toNat && c.toNat ≤ 57 then some (c.toNat - 48)
  else if 65 ≤ c.toNat && c.toNat ≤ 70 then some (c.toNat - 55)
  else if 97 ≤ c.toNat && c.toNat ≤ 102 then some (c.toNat - 87)
  else none

/-- Parse the body of a JSON string literal after the opening quote,
    returning the decoded characters and the input after the closing quote. -/
def parseJsonStr (fuel : Nat) (l : List Char) : Option (List Char × List Char) :=
  match fuel, l with
  | 0, _ => none
  | _, [] => none
  | fuel + 1, c :: rest =>
    if c == '"' then some ([], rest)
    else if c == '\\' then
      match rest with
      | [] => none
      | e :: rest2 =>
        let decoded : Option (Char × List Char) :=
          if e == '"' then some ('"', rest2)
          else if e == '\\' then some ('\\', rest2)
          else if e == '/' then some ('/', rest2)
          else if e == 'b' then some ('\x08', rest2)
          else if e == 'f' then some ('\x0c', rest2)
          else if e == 'n' then some ('\n', rest2)
          else if e == 'r' then some ('\r', rest2)
          else if e == 't' then some ('\t', rest2)
          else if e == 'u' then
            match rest2 with
            | h1 :: h2 :: h3 :: h4 :: rest3 =>
              match hexVal h1, hexVal h2, hexVal h3, hexVal h4 with
              | some a, some b, some c', some d =>
                some (Char.ofNat (a * 4096 + b * 256 + c' * 16 + d), rest3)
              | _, _, _, _ => none
            | _ => none
          else none
        match decoded with
        | none => none
        | some (ch, rest3) =>
          match parseJsonStr fuel rest3 with
          | none => none
          | some (cs, rem) => some (ch :: cs, rem)
    else if c.toNat < 32 then none
    else
      match parseJsonStr fuel rest with
      | none => none
      | some (cs, rem) => some (c :: cs, rem)

/-- Digits of a nonnegative decimal literal to a natural number. -/
def digitsToNat : List Char → Nat → Nat
  | [], acc => acc
  | c :: rest, acc => digitsToNat rest (acc * 10 + (c.toNat - 48))

mutual

/-- Parse one JSON value (leading whitespace already skipped). -/
def parseJsonVal (fuel : Nat) (l : List Char) : Option (Json × List Char) :=
  match fuel with
  | 0 => none
  | fuel + 1 =>
    match l with
    | [] => none
    | c :: rest =>
      if c == 'n' then
        match rest with
        | 'u' :: 'l' :: 'l' :: rem => some (.null, rem)
        | _ => none
      else if c == 't' then
        match rest with
        | 'r' :: 'u' :: 'e' :: rem => some (.bool true, rem)
        | _ => none
      else if c == 'f' then
        match rest with
        | 'a' :: 'l' :: 's' :: 'e' :: rem => some (.bool false, rem)
        | _ => none
      else if c == '"' then
        match parseJsonStr fuel rest with
        | some (cs, rem) => some (.str (String.mk cs), rem)
        | none => none
      else if c == '[' then
        match jsonSkipWs rest with
        | ']' :: rem => some (.arr [], rem)
        | l2 => match parseJsonItems fuel l2 with
          | some (xs, rem) => some (.arr xs, rem)
          | none => none
      else if c == Char.ofNat 123 then
        match jsonSkipWs rest with
        | r :: rem =>
          if r == Char.ofNat 125 then some (.obj [], rem)
          else match parseJsonMembers fuel (r :: rem) with
            | some (fs, rem2) => some (.obj fs, rem2)
            | none => none
        | [] => none
      else if c == '-' || isDigitChar c then
        let (neg, l2) := if c == '-' then (true, rest) else (false, c :: rest)
        let digits := l2.takeWhile isDigitChar
        let after := l2.drop digits.length
        if digits.isEmpty then none
        else if digits.length > 1 && digits.headD ' ' == '0' then none
        else match after with
          | '.' :: _ => none
          | 'e' :: _ => none
          | 'E' :: _ => none
          | _ =>
            let n : Int := digitsToNat digits 0
            some (.num (if neg then -n else n), after)
      else none

/-- Parse a comma-separated nonempty list of array elements, consuming the
    closing bracket. -/
def parseJsonItems (fuel : Nat) (l : List Char) : Option (List Json × List Char) :=
  match fuel with
  | 0 => none
  | fuel + 1 =>
    match parseJsonVal fuel l with
    | none => none
    | some (v, rem) =>
      match jsonSkipWs rem with
      | ',' :: rem2 =>
        match parseJsonItems fuel (jsonSkipWs rem2) with
        | some (xs, rem3) => some (v :: xs, rem3)
        | none => none
      | ']' :: rem2 => some ([v], rem2)
      | _ => none

/-- Parse a comma-separated nonempty list of object members, consuming the
    closing brace. -/
def parseJsonMembers (fuel : Nat) (l : List Char) : Option (List (String × Json) × List Char) :=
  match fuel with
  | 0 => none
  | fuel + 1 =>
    match l with
    | '"' :: rest =>
      match parseJsonStr fuel rest with
      | none => none
      | some (key, rem) =>
        match jsonSkipWs rem with
        | ':' :: rem2 =>
          match parseJsonVal fuel (jsonSkipWs rem2) with
          | none => none
          | some (v, rem3) =>
            match jsonSkipWs rem3 with
            | ',' :: rem4 =>
              match parseJsonMembers fuel (jsonSkipWs rem4) with
              | some (fs, rem5) => some ((String.mk key, v) :: fs, rem5)
              | none => none
            | r :: rem4 =>
              if r == Char.ofNat 125 then some ([(String.mk key, v)], rem4) else none
            | [] => none
        | _ => none
    | _ => none

end

/-- `JSON.parse(s)`: `none` models a thrown `SyntaxError`. -/
def jsonParse (s : String) : Option Json :=
  match parseJsonVal (s.length + 1) (jsonSkipWs s.data) with
  | some (v, rem) => if (jsonSkipWs rem).isEmpty then some v else none
  | none => none

/-! ## JavaScript property access on parsed values -/

/-- Property lookup on an object's field list: JavaScript objects have unique
    keys with the last JSON occurrence winning, so lookup takes the last
    matching binding. -/
def objGet (fields : List (String × Json)) (key : String) : Option Json :=
  match fields.reverse.find? (fun kv => kv.1 == key) with
  | some kv => some kv.2
  | none => none

/-- `v[key]` for a non-null receiver: named properties exist only on objects
    (the index/length properties of strings and arrays are not consulted by
    the embedded code paths). `none` is `undefined`. -/
def jsProp : Json → String → Option Json
  | .obj fs, key => objGet fs key
  | _, _ => none

/-- JavaScript `a ?? b` on possibly-undefined values: `b` is used when `a`
    is `undefined` or `null`. -/
def jsNullishAlt (a b : Option Json) : Option Json :=
  match a with
  | none => b
  | some .null => b
  | some v => some v

/-! ## Provider data model (src/providers/types.ts) -/

/-- A tool definition offered to the model. -/
structure ToolDefinition where
  name : String
  description : String
  parameters : Json
deriving DecidableEq

/-- A tool invocation in a response. -/
structure ToolCall where
  name : String
  arguments : List (String × Json)
deriving DecidableEq

/-- Usage counters. -/
structure Usage where
  prompt_tokens : Int
  completion_tokens : Int
deriving DecidableEq

/-- A normalized chat request. -/
structure ProviderRequest where
  model : String
  system : Option String := none
  prompt : String
  temperature : Option Int := none
  max_tokens : Option Int := none
  tools : Option (List ToolDefinition) := none
deriving DecidableEq

/-- A normalized chat response.  The TypeScript interface declares
    `tool_calls` as a required list, but runtime response objects may omit
    the field (the demo provider's non-tool branches do); the embedding
    therefore makes it optional, `none` meaning the field is absent
    (`undefined`). -/
structure ProviderResponse where
  content : String
  tool_calls : Option (List ToolCall) := none
  usage : Option Usage := none
  model : Option String := none
deriving DecidableEq

/-- A chat provider: one call per invocation; a rejected promise is
    `Except.error`. -/
structure Provider where
  name : String
  chat : ProviderRequest → Except String ProviderResponse

/-! ## Assertion data model (src/assertions/index.ts) -/

/-- The `value` field of an assertion (`string | number`). -/
inductive AssertValue where
  | str (s : String) : AssertValue
  | num (n : Int) : AssertValue
deriving DecidableEq

/-- One assertion of a test case; `none` fields are absent (`undefined`). -/
structure Assertion where
  type : String
  value : Option AssertValue := none
  pattern : Option String := none
  name : Option String := none
  contains : Option (List (String × Json)) := none
  schema : Option Json := none
deriving DecidableEq

/-- The outcome of one assertion evaluation. -/
structure AssertionResult where
  passed : Bool
  message : String
deriving DecidableEq

/-! ## Judge environment and platform capabilities -/

/-- Environment variables read by the judge module.  `judgeModel` and
    `judgeProvider` are the module-level constants
    `AGENTCI_JUDGE_MODEL || ""` and `AGENTCI_JUDGE_PROVIDER || ""`; the two
    API keys are read at call time (`none` = unset). -/
structure JudgeEnv where
  judgeModel : String := ""
  judgeProvider : String := ""
  openaiKey : Option String := none
  anthropicKey : Option String := none

/-- The two hosted judge backends. -/
inductive JudgeBackend where
  | openai : JudgeBackend
  | anthropic : JudgeBackend
deriving DecidableEq

/-- A successful backend selection. -/
structure JudgeConfig where
  backend : JudgeBackend
  model : String
deriving DecidableEq

/-- The reply of one HTTP judge call as observed by the caller: either a
    non-2xx status with body text, or a parsed JSON body. -/
inductive HttpReply where
  | bad (status : Nat) (text : String) : HttpReply
  | good (body : Json) : HttpReply

/-- Ambient platform capabilities, passed as an explicit parameter: the
    RegExp engine, the Ajv validator (returns `none` for a valid instance,
    `some errText` with the joined error description otherwise), `fetch` to
    the two judge endpoints (arguments: api key, model, system prompt, user
    prompt), and the two hosted chat-provider constructors (arguments as in
    the source: `createOpenAIProvider({apiKey, baseURL})`,
    `createAnthropicProvider({apiKey})`). -/
structure Platform where
  regexTest : String → String → Bool
  ajvValidate : Json → Json → Option String
  openaiJudge : String → String → String → String → HttpReply
  anthropicJudge : String → String → String → String → HttpReply
  mkOpenAIProvider : Option String → Option String → Provider
  mkAnthropicProvider : Option String → Provider

/-! ## Judge backend selection and verdict parsing (src/assertions/judge.ts,
    the dual-backend version) -/

/-- The judge verdict record (named `JudgeResponse` in the source). -/
structure JudgeResponse where
  passed : Bool
  reasoning : String
deriving DecidableEq

/-- `detectJudgeBackend` from the source: explicit override first (failing
    locally if its credential is absent), then auto-detection preferring
    OpenAI, then the no-key error. -/
def detectJudgeBackend (env : JudgeEnv) : Except String JudgeConfig :=
  let provider := asciiLower env.judgeProvider
  if provider = "anthropic" then
    if !strTruthy env.anthropicKey then
      .error "AGENTCI_JUDGE_PROVIDER=anthropic but ANTHROPIC_API_KEY not set"
    else .ok ⟨.anthropic, jsOrStr (some env.judgeModel) "claude-sonnet-4-20250514"⟩
  else if provider = "openai" then
    if !strTruthy env.openaiKey then
      .error "AGENTCI_JUDGE_PROVIDER=openai but OPENAI_API_KEY not set"
    else .ok ⟨.openai, jsOrStr (some env.judgeModel) "gpt-4o-mini"⟩
  else if strTruthy env.openaiKey then
    .ok ⟨.openai, jsOrStr (some env.judgeModel) "gpt-4o-mini"⟩
  else if strTruthy env.anthropicKey then
    .ok ⟨.anthropic, jsOrStr (some env.judgeModel) "claude-sonnet-4-20250514"⟩
  else
    .error "No API key found for judge. Set OPENAI_API_KEY or ANTHROPIC_API_KEY."

/-- The span matched by the greedy regex `/\{[\s\S]*\}/`: from the first
    opening brace to the last closing brace of the whole string (a match
    exists iff some closing brace follows the first opening brace). -/
def greedyBraceSpan (s : String) : Option String :=
  match s.data.dropWhile (fun c => c != Char.ofNat 123) with
  | [] => none
  | l =>
    match l.reverse.dropWhile (fun c => c != Char.ofNat 125) with
    | [] => none
    | r => if r.length ≤ 1 then none else some (String.mk r.reverse)

/-- Decoding of the parsed verdict object: `parsed.pass ?? parsed.passed`
    for the flag (then coerced with `!!`), `parsed.reasoning ?? parsed.reason
    ?? "No reasoning provided"` truncated with `.slice(0, 500)` for the
    explanation.  Property access on a `null` receiver throws, and a
    non-string explanation value has no `.slice` method and throws as well
    (the source's `try` then converts either throw into the parse-failure
    verdict).  Arrays also carry `.slice`; an array-valued `reasoning` is
    outside the modelled domain and treated as the same type error. -/
def decodeJudgeVerdict (parsed : Json) : Except String JudgeResponse :=
  match parsed with
  | .null => .error "Cannot read properties of null"
  | p =>
    let passVal := jsNullishAlt (jsProp p "pass") (jsProp p "passed")
    let reasonVal :=
      jsNullishAlt (jsProp p "reasoning")
        (jsNullishAlt (jsProp p "reason") (some (.str "No reasoning provided")))
    match reasonVal with
    | some (.str s) => .ok ⟨jsTruthyOpt passVal, strTake s 500⟩
    | _ => .error "slice is not a function"

/-- `parseJudgeResponse` from the source: extract the greedy `{...}` span
    (falling back to the whole reply), `JSON.parse` it, decode the verdict,
    and convert any failure into a failed verdict carrying the first 200
    characters of the reply. -/
def parseJudgeResponse (content : String) : JudgeResponse :=
  let jsonStr := (greedyBraceSpan content).getD content
  match jsonParse jsonStr with
  | none => ⟨false, "Failed to parse judge response: " ++ strTake content 200⟩
  | some parsed =>
    match decodeJudgeVerdict parsed with
    | .ok r => r
    | .error _ => ⟨false, "Failed to parse judge response: " ++ strTake content 200⟩

/-- Extraction of `data.choices[0]?.message?.content || "{}"` from the
    OpenAI reply body (`data.choices[0]` throws when `choices` is absent;
    the optional chain tolerates a missing element; `|| "{}"` replaces any
    falsy result; a truthy non-string content would lack `.match` and
    throw in `parseJudgeResponse`). -/
def openaiReplyContent (data : Json) : Except String String :=
  let choices := jsProp data "choices"
  match choices with
  | none => .error "Cannot read properties of undefined (reading \x270\x27)"
  | some .null => .error "Cannot read properties of null (reading \x270\x27)"
  | some (.arr xs) =>
    let elem0 := xs.head?
    let contentVal :=
      match elem0 with
      | none => none
      | some .null => none
      | some e =>
        match jsProp e "message" with
        | none => none
        | some .null => none
        | some m => jsProp m "content"
    match contentVal with
    | some (.str s) => if s.isEmpty then .ok "\x7b\x7d" else .ok s
    | some v => if jsTruthy v then .error "content.match is not a function" else .ok "\x7b\x7d"
    | none => .ok "\x7b\x7d"
  | some _ => .ok "\x7b\x7d"

/-- `callJudgeOpenAI` from the source: POST to the OpenAI chat-completions
    endpoint with the selected model, temperature 0, max_tokens 300, JSON
    response format and the two messages; a non-2xx reply becomes a failed
    verdict with the status and truncated body, otherwise the first
    choice's content is parsed as a verdict. -/
def callJudgeOpenAI (plat : Platform) (env : JudgeEnv) (systemPrompt userPrompt model : String) :
    Except String JudgeResponse :=
  match plat.openaiJudge (jsOrStr env.openaiKey "") model systemPrompt userPrompt with
  | .bad status text =>
    .ok ⟨false, "Judge API error (OpenAI): " ++ toString status ++ " " ++ strTake text 200⟩
  | .good data => do
    let content ← openaiReplyContent data
    .ok (parseJudgeResponse content)

/-- Extraction of `data.content.find((b) => b.type === "text")?.text || "{}"`
    from the Anthropic reply body. -/
def anthropicReplyContent (data : Json) : Except String String :=
  match jsProp data "content" with
  | none => .error "Cannot read properties of undefined (reading \x27find\x27)"
  | some .null => .error "Cannot read properties of null (reading \x27find\x27)"
  | some (.arr xs) =>
    let found := xs.find? (fun b => jsProp b "type" == some (.str "text"))
    let textVal :=
      match found with
      | none => none
      | some .null => none
      | some b => jsProp b "text"
    match textVal with
    | some (.str s) => if s.isEmpty then .ok "\x7b\x7d" else .ok s
    | some v => if jsTruthy v then .error "text.match is not a function" else .ok "\x7b\x7d"
    | none => .ok "\x7b\x7d"
  | some _ => .error "data.content.find is not a function"

/-- The JSON-only instruction appended to the system prompt for the
    Anthropic judge backend (which has no native JSON mode). -/
def anthropicJsonInstruction : String :=
  "\n\nYou MUST respond with valid JSON only: \x7b\"pass\": true/false, \"reasoning\": \"...\"\x7d"

/-- `callJudgeAnthropic` from the source. -/
def callJudgeAnthropic (plat : Platform) (env : JudgeEnv) (systemPrompt userPrompt model : String) :
    Except String JudgeResponse :=
  match plat.anthropicJudge (jsOrStr env.anthropicKey "") model
      (systemPrompt ++ anthropicJsonInstruction) userPrompt with
  | .bad status text =>
    .ok ⟨false, "Judge API error (Anthropic): " ++ toString status ++ " " ++ strTake text 200⟩
  | .good data => do
    let content ← anthropicReplyContent data
    .ok (parseJudgeResponse content)

/-- `callJudge` from the source: select a backend (a selection error is a
    failed verdict, no HTTP call), then issue exactly one call to the
    selected backend with the selected model. -/
def callJudge (plat : Platform) (env : JudgeEnv) (systemPrompt userPrompt : String) :
    Except String JudgeResponse :=
  match detectJudgeBackend env with
  | .error e => .ok ⟨false, e⟩
  | .ok cfg =>
    match cfg.backend with
    | .anthropic => callJudgeAnthropic plat env systemPrompt userPrompt cfg.model
    | .openai => callJudgeOpenAI plat env systemPrompt userPrompt cfg.model

/-! ## Text assertions (src/assertions/text.ts)

Each evaluator performs `assertion.value as string` and then calls a string
method on it; when the field is absent that method call throws a
`TypeError` (modelled as `Except.error`), and when the field holds a number
the method does not exist and throws as well. -/

/-- `assertContains`. -/
def assertContains (response : ProviderResponse) (assertion : Assertion) :
    Except String AssertionResult :=
  match assertion.value with
  | none => .error "Cannot read properties of undefined (reading \x27toLowerCase\x27)"
  | some (.num _) => .error "value.toLowerCase is not a function"
  | some (.str value) =>
    let passed := jsIncludes (asciiLower response.content) (asciiLower value)
    .ok ⟨passed,
      if passed then "contains \"" ++ value ++ "\""
      else "expected response to contain \"" ++ value ++ "\""⟩

/-- `assertNotContains`. -/
def assertNotContains (response : ProviderResponse) (assertion : Assertion) :
    Except String AssertionResult :=
  match assertion.value with
  | none => .error "Cannot read properties of undefined (reading \x27toLowerCase\x27)"
  | some (.num _) => .error "value.toLowerCase is not a function"
  | some (.str value) =>
    let passed := !(jsIncludes (asciiLower response.content) (asciiLower value))
    .ok ⟨passed,
      if passed then "does not contain \"" ++ value ++ "\""
      else "expected response to NOT contain \"" ++ value ++ "\""⟩

/-- `assertRegex`: the RegExp engine is the platform's.  `new
    RegExp(undefined, "i")` compiles the empty pattern, which matches every
    string, and the message stringifies the absent field as `undefined`. -/
def assertRegex (plat : Platform) (response : ProviderResponse) (assertion : Assertion) :
    Except String AssertionResult :=
  match assertion.pattern with
  | none => .ok ⟨true, "matches pattern /undefined/"⟩
  | some pat =>
    let passed := plat.regexTest pat response.content
    .ok ⟨passed,
      if passed then "matches pattern /" ++ pat ++ "/"
      else "expected response to match /" ++ pat ++ "/"⟩

/-- `assertStartsWith`. -/
def assertStartsWith (response : ProviderResponse) (assertion : Assertion) :
    Except String AssertionResult :=
  match assertion.value with
  | none => .error "Cannot read properties of undefined (reading \x27toLowerCase\x27)"
  | some (.num _) => .error "value.toLowerCase is not a function"
  | some (.str value) =>
    let passed := jsStartsWith (asciiLower (jsTrimStart response.content)) (asciiLower value)
    .ok ⟨passed,
      if passed then "starts with \"" ++ value ++ "\""
      else "expected response to start with \"" ++ value ++ "\""⟩

/-- `assertEndsWith`. -/
def assertEndsWith (response : ProviderResponse) (assertion : Assertion) :
    Except String AssertionResult :=
  match assertion.value with
  | none => .error "Cannot read properties of undefined (reading \x27toLowerCase\x27)"
  | some (.num _) => .error "value.toLowerCase is not a function"
  | some (.str value) =>
    let passed := jsEndsWith (asciiLower (jsTrimEnd response.content)) (asciiLower value)
    .ok ⟨passed,
      if passed then "ends with \"" ++ value ++ "\""
      else "expected response to end with \"" ++ value ++ "\""⟩

/-! ## Token assertions (src/assertions/tokens.ts) -/

/-- Rendering of the asserted value inside the token messages
    (`${maxTokens}` renders an absent field as `undefined`). -/
def assertValueRender : Option AssertValue → String
  | none => "undefined"
  | some (.str s) => s
  | some (.num n) => toString n

/-- `assertMaxTokens`: `estimated <= maxTokens`.  A comparison against
    `undefined` is false in JavaScript; a string value would be coerced
    numerically, which is outside the modelled domain (config values are
    numbers) and modelled as the false comparison. -/
def assertMaxTokens (response : ProviderResponse) (assertion : Assertion) :
    Except String AssertionResult :=
  let estimated := estimateTokens response.content
  let passed :=
    match assertion.value with
    | some (.num n) => (estimated : Int) ≤ n
    | _ => false
  .ok ⟨passed,
    if passed then
      "response ~" ++ toString estimated ++ " tokens <= " ++ assertValueRender assertion.value ++ " max"
    else
      "expected response to be under " ++ assertValueRender assertion.value ++
        " tokens, but got ~" ++ toString estimated⟩

/-- `assertMinTokens`: `estimated >= minTokens`. -/
def assertMinTokens (response : ProviderResponse) (assertion : Assertion) :
    Except String AssertionResult :=
  let estimated := estimateTokens response.content
  let passed :=
    match assertion.value with
    | some (.num n) => n ≤ (estimated : Int)
    | _ => false
  .ok ⟨passed,
    if passed then
      "response ~" ++ toString estimated ++ " tokens >= " ++ assertValueRender assertion.value ++ " min"
    else
      "expected response to be at least " ++ assertValueRender assertion.value ++
        " tokens, but got ~" ++ toString estimated⟩

/-! ## Tool assertions (src/assertions/tools.ts) -/

/-- The tool name for message rendering (`${toolName}` renders an absent
    field as `undefined`). -/
def toolNameRender (a : Assertion) : String :=
  a.name.getD "undefined"

/-- Does a tool call match the asserted name?  (`tc.name === toolName`; a
    strict comparison against `undefined` is always false.) -/
def toolNameMatches (a : Assertion) (tc : ToolCall) : Bool :=
  match a.name with
  | some n => tc.name == n
  | none => false

/-- `assertToolCalled`: `response.tool_calls.some(...)` throws when the
    field is absent. -/
def assertToolCalled (response : ProviderResponse) (assertion : Assertion) :
    Except String AssertionResult :=
  match response.tool_calls with
  | none => .error "Cannot read properties of undefined (reading \x27some\x27)"
  | some calls =>
    let passed := calls.any (toolNameMatches assertion)
    .ok ⟨passed,
      if passed then "tool \"" ++ toolNameRender assertion ++ "\" was called"
      else
        "expected " ++ toolNameRender assertion ++ " to be called, but " ++
          (if calls.length == 0 then "no tool calls made"
           else "only [" ++ sepJoin ", " (calls.map (fun tc => tc.name)) ++ "] called")⟩

/-- `JSON.stringify(actual)` where `actual` may be `undefined`
    (`JSON.stringify(undefined)` is `undefined`, rendered as the text
    `undefined` inside a template literal). -/
def stringifyOpt : Option Json → Option String
  | none => none
  | some v => some (jsonStringify v)

/-- Template-literal rendering of a possibly-undefined stringify result. -/
def stringifyOptRender (o : Option Json) : String :=
  (stringifyOpt o).getD "undefined"

/-- The mismatch entry recorded for one expected key, if any: compares
    `JSON.stringify` forms of the actual argument (property lookup, absent =
    `undefined`) and the expected value. -/
def toolArgMismatch (args : List (String × Json)) (key : String) (value : Json) :
    Option String :=
  let actual := args.lookup key
  if stringifyOpt actual == some (jsonStringify value) then none
  else some (key ++ ": expected " ++ jsonStringify value ++ ", got " ++ stringifyOptRender actual)

/-- `assertToolArgs`: find the named call (`.find` throws on an absent
    list), require the `contains` mapping (`Object.entries(undefined)`
    throws), collect every mismatching key, pass iff none mismatch. -/
def assertToolArgs (response : ProviderResponse) (assertion : Assertion) :
    Except String AssertionResult :=
  match response.tool_calls with
  | none => .error "Cannot read properties of undefined (reading \x27find\x27)"
  | some calls =>
    match calls.find? (toolNameMatches assertion) with
    | none =>
      .ok ⟨false,
        "expected " ++ toolNameRender assertion ++
          " to be called with specific args, but it was not called"⟩
    | some toolCall =>
      match assertion.contains with
      | none => .error "Cannot convert undefined or null to object"
      | some expectedArgs =>
        let mismatches :=
          expectedArgs.filterMap (fun kv => toolArgMismatch toolCall.arguments kv.1 kv.2)
        let passed := mismatches.isEmpty
        .ok ⟨passed,
          if passed then "tool \"" ++ toolNameRender assertion ++ "\" called with expected args"
          else
            "tool \"" ++ toolNameRender assertion ++ "\" args mismatch: " ++
              sepJoin "; " mismatches⟩

/-! ## JSON assertions (src/assertions/json.ts) -/

/-- `assertJsonValid`. -/
def assertJsonValid (response : ProviderResponse) (_assertion : Assertion) :
    Except String AssertionResult :=
  match jsonParse response.content with
  | some _ => .ok ⟨true, "response is valid JSON"⟩
  | none => .ok ⟨false, "expected response to be valid JSON"⟩

/-- `assertJsonSchema`: parse the content, then validate with the platform's
    Ajv instance (an external library; its verdict and joined error text are
    the oracle's).  `ajv.compile(undefined)` throws. -/
def assertJsonSchema (plat : Platform) (response : ProviderResponse) (assertion : Assertion) :
    Except String AssertionResult :=
  match assertion.schema with
  | none => .error "schema must be object or boolean"
  | some schema =>
    match jsonParse response.content with
    | none => .ok ⟨false, "expected response to be valid JSON for schema validation"⟩
    | some parsed =>
      match plat.ajvValidate schema parsed with
      | none => .ok ⟨true, "response matches JSON schema"⟩
      | some errText => .ok ⟨false, "JSON schema validation failed: " ++ errText⟩

/-! ## Judge assertions (src/assertions/judge.ts) -/

/-- Truthiness of the `value` field (`!criterion`). -/
def assertValueTruthy : Option AssertValue → Bool
  | none => false
  | some (.str s) => !s.isEmpty
  | some (.num n) => n != 0

/-- `assertLlmJudge`. -/
def assertLlmJudge (plat : Platform) (env : JudgeEnv) (response : ProviderResponse)
    (assertion : Assertion) : Except String AssertionResult :=
  if !assertValueTruthy assertion.value then
    .ok ⟨false, "llm_judge requires a \x27value\x27 field with the evaluation criterion"⟩
  else
    let criterion := assertValueRender assertion.value
    let systemPrompt := "You are a strict test evaluator. Given an AI agent\x27s response and a criterion, determine if the response meets the criterion.\n\nRespond with JSON: \x7b\"pass\": true/false, \"reasoning\": \"brief explanation\"\x7d\n\nBe strict but fair. If the criterion is ambiguous, interpret it reasonably."
    let userPrompt := "## Criterion\n" ++ criterion ++ "\n\n## Agent Response\n" ++ response.content
    match callJudge plat env systemPrompt userPrompt with
    | .error e => .error e
    | .ok judge =>
      .ok ⟨judge.passed,
        (if judge.passed then "llm_judge passed: " else "llm_judge failed: ") ++ judge.reasoning⟩

/-- `assertSemanticSimilarity`. -/
def assertSemanticSimilarity (plat : Platform) (env : JudgeEnv) (response : ProviderResponse)
    (assertion : Assertion) : Except String AssertionResult :=
  if !assertValueTruthy assertion.value then
    .ok ⟨false, "semantic_similarity requires a \x27value\x27 field with the reference text"⟩
  else
    let reference := assertValueRender assertion.value
    let systemPrompt := "You are a semantic similarity evaluator. Compare two texts and determine if they convey the same core meaning, even if worded differently.\n\nRespond with JSON: \x7b\"pass\": true/false, \"reasoning\": \"brief explanation\"\x7d\n\nPass if the core meaning/answer is equivalent. Fail if the meaning differs substantively. Ignore minor stylistic differences, extra detail, or different phrasing."
    let userPrompt := "## Reference (expected meaning)\n" ++ reference ++ "\n\n## Actual Response\n" ++ response.content
    match callJudge plat env systemPrompt userPrompt with
    | .error e => .error e
    | .ok judge =>
      .ok ⟨judge.passed,
        (if judge.passed then "semantic_similarity passed: " else "semantic_similarity failed: ") ++ judge.reasoning⟩

/-- `assertSentiment`. -/
def assertSentiment (plat : Platform) (env : JudgeEnv) (response : ProviderResponse)
    (assertion : Assertion) : Except String AssertionResult :=
  if !assertValueTruthy assertion.value then
    .ok ⟨false, "sentiment requires a \x27value\x27 field with the expected tone"⟩
  else
    let expectedTone := assertValueRender assertion.value
    let systemPrompt := "You are a tone/sentiment evaluator. Determine if a text matches the expected tone or sentiment.\n\nRespond with JSON: \x7b\"pass\": true/false, \"reasoning\": \"brief explanation\"\x7d\n\nCommon tones: professional, friendly, neutral, empathetic, formal, casual, helpful, apologetic, confident, cautious.\nBe reasonable — the text doesn\x27t need to be a perfect example, just broadly matching the expected tone."
    let userPrompt := "## Expected Tone\n" ++ expectedTone ++ "\n\n## Text to Evaluate\n" ++ response.content
    match callJudge plat env systemPrompt userPrompt with
    | .error e => .error e
    | .ok judge =>
      .ok ⟨judge.passed,
        (if judge.passed then "sentiment passed: " else "sentiment failed: ") ++ judge.reasoning⟩

/-! ## The assertion registry (src/assertions/index.ts) -/

/-- The evaluator signature with the ambient platform and judge environment
    made explicit. -/
def AssertionFn : Type :=
  Platform → JudgeEnv → ProviderResponse → Assertion → Except String AssertionResult

/-- The registry, in the source's insertion order (the object literal's own
    keys; inherited prototype properties are not part of the modelled
    lookup). -/
def registry : List (String × AssertionFn) :=
  [("contains", fun _ _ r a => assertContains r a),
   ("not_contains", fun _ _ r a => assertNotContains r a),
   ("regex", fun p _ r a => assertRegex p r a),
   ("starts_with", fun _ _ r a => assertStartsWith r a),
   ("ends_with", fun _ _ r a => assertEndsWith r a),
   ("max_tokens", fun _ _ r a => assertMaxTokens r a),
   ("min_tokens", fun _ _ r a => assertMinTokens r a),
   ("tool_called", fun _ _ r a => assertToolCalled r a),
   ("tool_args", fun _ _ r a => assertToolArgs r a),
   ("json_valid", fun _ _ r a => assertJsonValid r a),
   ("json_schema", fun p _ r a => assertJsonSchema p r a),
   ("llm_judge", fun p e r a => assertLlmJudge p e r a),
   ("semantic_similarity", fun p e r a => assertSemanticSimilarity p e r a),
   ("sentiment", fun p e r a => assertSentiment p e r a)]

/-- `runAssertion`: dispatch by the assertion's `type`; an unregistered type
    yields a failed result, never a rejection. -/
def runAssertion (plat : Platform) (env : JudgeEnv) (response : ProviderResponse)
    (assertion : Assertion) : Except String AssertionResult :=
  match registry.lookup assertion.type with
  | none => .ok ⟨false, "unknown assertion type: \"" ++ assertion.type ++ "\""⟩
  | some fn => fn plat env response assertion

/-- `getAssertionTypes` (`Object.keys`, insertion order). -/
def getAssertionTypes : List String :=
  registry.map (fun kv => kv.1)

/-! ## HTTP provider templating (src/providers/http.ts)

Only the pure request-templating and response-path helpers are embedded;
the network call itself is ambient (`fetch`). -/

/-- `\w` of the placeholder regex: `[A-Za-z0-9_]`. -/
def isWordChar (c : Char) : Bool :=
  (97 ≤ c.toNat && c.toNat ≤ 122) || (65 ≤ c.toNat && c.toNat ≤ 90) ||
    (48 ≤ c.toNat && c.toNat ≤ 57) || c == '_'

/-- If the input starts with a `{{key}}` placeholder (`\{\{(\w+)\}\}`,
    key nonempty), return the key.  Greedy `\w+` followed by `\}\}` is
    equivalent to maximal munch: a shorter word run is necessarily followed
    by another word character, never by a brace. -/
def placeholderKey : List Char → Option String
  | a :: b :: rest =>
    if a = Char.ofNat 123 ∧ b = Char.ofNat 123 then
      let ks := rest.takeWhile isWordChar
      match rest.drop ks.length with
      | r1 :: r2 :: _ =>
        if ks ≠ [] ∧ r1 = Char.ofNat 125 ∧ r2 = Char.ofNat 125 then
          some (String.mk ks) else none
      | _ => none
    else none
  | _ => none

/-- The scanner of `template.replace(/\{\{(\w+)\}\}/g, ...)`: at each
    position, if a placeholder starts here, emit the replacement
    (`val === undefined ? "" : String(val)`) and continue after it
    (`key.length + 4` characters: two braces, the key, two braces);
    otherwise emit the character and advance by one. -/
def interpolateGo (values : String → Option Json) : List Char → String
  | [] => ""
  | c :: rest =>
    match placeholderKey (c :: rest) with
    | some key =>
      (match values key with | none => "" | some v => jsToString v) ++
        interpolateGo values ((c :: rest).drop (key.length + 4))
    | none => String.singleton c ++ interpolateGo values rest
termination_by l => l.length
decreasing_by
  · simp [List.length_drop]; omega
  · simp

/-- `interpolate` from the source: in-place string substitution of every
    `{{field}}` placeholder, absent fields replaced by the empty string. -/
def interpolate (template : String) (values : String → Option Json) : String :=
  interpolateGo values template.data

/-- Does the whole string match `^\{\{(\w+)\}\}$`?  Returns the key. -/
def singlePlaceholder (s : String) : Option String :=
  match s.data with
  | a :: b :: rest =>
    if a = Char.ofNat 123 ∧ b = Char.ofNat 123 then
      let ks := rest.takeWhile isWordChar
      if ks ≠ [] ∧ rest.drop ks.length = [Char.ofNat 125, Char.ofNat 125] then
        some (String.mk ks)
      else none
    else none
  | _ => none

mutual

/-- `interpolateTemplate` from the source: a string leaf that is exactly one
    placeholder is replaced by the original typed value (empty string when
    the field is absent); every other string leaf gets `interpolate`; arrays
    and objects are recursed into; all other leaves are returned as-is. -/
def interpolateTemplate (template : Json) (values : String → Option Json) : Json :=
  match template with
  | .str s =>
    match singlePlaceholder s with
    | some key =>
      match values key with
      | none => .str ""
      | some v => v
    | none => .str (interpolate s values)
  | .arr items => .arr (interpolateTemplateItems items values)
  | .obj fields => .obj (interpolateTemplateFields fields values)
  | t => t

/-- Elementwise template interpolation (`template.map(...)`). -/
def interpolateTemplateItems (items : List Json) (values : String → Option Json) : List Json :=
  match items with
  | [] => []
  | x :: xs => interpolateTemplate x values :: interpolateTemplateItems xs values

/-- Fieldwise template interpolation (`Object.entries` loop). -/
def interpolateTemplateFields (fields : List (String × Json)) (values : String → Option Json) :
    List (String × Json) :=
  match fields with
  | [] => []
  | (k, v) :: fs => (k, interpolateTemplate v values) :: interpolateTemplateFields fs values

end

/-- `getByPath` from the source: resolve a dot-notation path, returning
    `undefined` whenever the current value is nullish or not an object. -/
def getByPath (obj : Json) (path : String) : Option Json :=
  (path.splitOn ".").foldl
    (fun current key =>
      match current with
      | some (.obj fs) => objGet fs key
      | some (.arr elems) =>
        match key.toNat? with
        | some i => elems.get? i
        | none => none
      | _ => none)
    (some obj)

/-! ## The demo provider (src/providers/demo.ts) -/

/-- The demo responses of the six non-default branches and the default
    branch, keyed by an enumeration of the branches (used by the routing
    theorems; the response bodies are the source's literals). -/
inductive DemoBranch where
  | shipping : DemoBranch
  | greeting : DemoBranch
  | refund : DemoBranch
  | techSupport : DemoBranch
  | pricing : DemoBranch
  | toolScenario : DemoBranch
  | fallback : DemoBranch
deriving DecidableEq

/-- The shipping response literal. -/
def demoShippingResponse : ProviderResponse :=
  { content := "Standard shipping takes 5-7 business days. Express shipping (2-3 days) is available for $9.99. You can track your order at acme.com/track with your order number."
    model := some "demo-model"
    usage := some ⟨20, 40⟩ }

/-- The greeting response literal. -/
def demoGreetingResponse : ProviderResponse :=
  { content := "Hello! I\x27m a customer support agent for Acme Corp. I can help you with orders, returns, and general questions. How can I assist you today?"
    model := some "demo-model"
    usage := some ⟨20, 35⟩ }

/-- The refund response literal. -/
def demoRefundResponse : ProviderResponse :=
  { content := "I understand you\x27d like a refund. I can process that for you. Our refund policy allows returns within 30 days of purchase. Could you please provide your order number so I can look into this for you?"
    model := some "demo-model"
    usage := some ⟨25, 45⟩ }

/-- The technical-support response literal. -/
def demoTechResponse : ProviderResponse :=
  { content := "I\x27m sorry to hear you\x27re experiencing issues. Let me help troubleshoot. Could you tell me:\n1. What product are you using?\n2. What error message are you seeing?\n3. When did this start happening?\n\nThis will help me diagnose the problem."
    model := some "demo-model"
    usage := some ⟨30, 50⟩ }

/-- The pricing response literal. -/
def demoPricingResponse : ProviderResponse :=
  { content := "Here are our current plans:\n- **Basic**: $9/month (1 user, 10GB storage)\n- **Pro**: $29/month (5 users, 100GB storage)\n- **Enterprise**: Contact sales for custom pricing\n\nAll plans include a 14-day free trial. Would you like to sign up?"
    model := some "demo-model"
    usage := some ⟨20, 55⟩ }

/-- The default response literal. -/
def demoDefaultResponse : ProviderResponse :=
  { content := "Thank you for reaching out to Acme Corp support. I\x27m here to help with any questions about our products and services. Could you provide more details about what you need assistance with?"
    model := some "demo-model"
    usage := some ⟨15, 35⟩ }

/-- The tool-call response: empty text, one invocation of the first offered
    tool with the lowercased prompt as the `query` argument. -/
def demoToolResponse (firstTool : ToolDefinition) (prompt : String) : ProviderResponse :=
  { content := ""
    model := some "demo-model"
    tool_calls := some [⟨firstTool.name, [("query", .str prompt)]⟩]
    usage := some ⟨30, 20⟩ }

/-- The demo provider's `chat`, a deterministic function of the request:
    keyword routing over the lowercased prompt in the source's order
    (shipping before greeting — "shipping" contains "hi").  The non-tool
    branches omit the `tool_calls` field. -/
def demoChat (request : ProviderRequest) : ProviderResponse :=
  let prompt := asciiLower request.prompt
  if jsIncludes prompt "ship" || jsIncludes prompt "deliver" || jsIncludes prompt "tracking" then
    demoShippingResponse
  else if jsIncludes prompt "hello" || jsIncludes prompt " hi " || jsIncludes prompt "help" then
    demoGreetingResponse
  else if jsIncludes prompt "refund" || jsIncludes prompt "return" || jsIncludes prompt "money back" then
    demoRefundResponse
  else if jsIncludes prompt "broken" || jsIncludes prompt "error" || jsIncludes prompt "not working" || jsIncludes prompt "bug" then
    demoTechResponse
  else if jsIncludes prompt "price" || jsIncludes prompt "cost" || jsIncludes prompt "plan" then
    demoPricingResponse
  else
    match request.tools with
    | some (t :: ts) =>
      if decide (0 < (t :: ts).length) &&
          (jsIncludes prompt "weather" || jsIncludes prompt "search" || jsIncludes prompt "look up") then
        demoToolResponse t prompt
      else demoDefaultResponse
    | _ => demoDefaultResponse

/-- `createDemoProvider`. -/
def createDemoProvider : Provider :=
  ⟨"demo", fun r => .ok (demoChat r)⟩

/-! ## Config surface needed by the claims (src/config.ts) -/

/-- The provider names accepted by `validateConfig`. -/
def validProviders : List String :=
  ["openai", "anthropic", "http"]

/-- The provider check of `validateConfig`: a name outside the fixed set is
    a config-level rejection. -/
def validateDefaultsProvider (p : String) : Except String Unit :=
  if validProviders.contains p then .ok ()
  else
    .error ("Invalid provider \"" ++ p ++ "\". Must be one of: " ++ sepJoin ", " validProviders)

/-! ## The test runner (runner.ts, reproduced in SPEC.md) -/

/-- One test case (post-validation shape from src/config.ts; the prompt
    already carries any `Context:` prefix). -/
structure TestCase where
  name : String
  system : Option String := none
  context : Option String := none
  prompt : String
  provider : Option String := none
  model : Option String := none
  temperature : Option Int := none
  max_tokens : Option Int := none
  base_url : Option String := none
  tools : Option (List ToolDefinition) := none
  assertions : List Assertion
  headers : Option (List (String × String)) := none
  request_template : Option Json := none
  response_path : Option String := none

/-- Suite-wide defaults. -/
structure Defaults where
  provider : String
  model : String
  temperature : Option Int := none
  max_tokens : Option Int := none
  base_url : Option String := none
  headers : Option (List (String × String)) := none
  request_template : Option Json := none
  response_path : Option String := none

/-- A validated suite. -/
structure AgentCIConfig where
  version : Nat := 1
  defaults : Defaults
  tests : List TestCase

/-- One assertion's evaluation inside a test result. -/
structure TestAssertionResult where
  assertion : Assertion
  result : AssertionResult
deriving DecidableEq

/-- The result of one test case (`duration` is wall-clock time, ambient to
    the embedding and modelled as 0). -/
structure TestResult where
  name : String
  passed : Bool
  duration : Nat := 0
  assertions : List TestAssertionResult
  response : Option ProviderResponse := none
  error : Option String := none
deriving DecidableEq

/-- The aggregated result of a run. -/
structure RunResult where
  results : List TestResult
  total : Nat
  passed : Nat
  failed : Nat
  duration : Nat := 0
deriving DecidableEq

/-- Runner options (`{verbose?, providerOverride?}`). -/
structure RunOptions where
  verbose : Bool := false
  providerOverride : Option Provider := none

/-- `getProvider` from the runner: only the two hosted adapters are
    constructed; every other name throws. -/
def getProvider (plat : Platform) (providerName : String) (baseUrl apiKey : Option String) :
    Except String Provider :=
  match providerName with
  | "openai" => .ok (plat.mkOpenAIProvider apiKey baseUrl)
  | "anthropic" => .ok (plat.mkAnthropicProvider apiKey)
  | _ => .error ("Unknown provider: " ++ providerName)

/-- The `ChatRequest` constructed by `runTest` (factored out of the source's
    body verbatim: per-test fields fall back to suite defaults; temperature
    defaults to 0 and max_tokens to 500 by nullish coalescing). -/
def buildRequest (test : TestCase) (config : AgentCIConfig) : ProviderRequest :=
  { model := jsOrStr test.model config.defaults.model
    system := test.system
    prompt := test.prompt
    temperature := some (jsCoalesceInt test.temperature config.defaults.temperature 0)
    max_tokens := some (jsCoalesceInt test.max_tokens config.defaults.max_tokens 500)
    tools := test.tools }

/-- The assertion loop of `runTest`: evaluate in declaration order; a
    rejection anywhere aborts the loop (and is caught by `runTest`). -/
def runAssertionsSeq (plat : Platform) (env : JudgeEnv) (response : ProviderResponse) :
    List Assertion → Except String (List TestAssertionResult)
  | [] => .ok []
  | a :: rest => do
    let r ← runAssertion plat env response a
    let rs ← runAssertionsSeq plat env response rest
    .ok (⟨a, r⟩ :: rs)

/-- `runTest` from the runner: resolve provider/model/base-url, construct
    the provider (unless an override is injected), issue one chat call,
    evaluate every assertion, AND the results; any throw inside the `try`
    yields a failed result with the error captured and no assertion
    results. -/
def runTest (plat : Platform) (env : JudgeEnv) (test : TestCase) (config : AgentCIConfig)
    (opts : RunOptions) : TestResult :=
  let providerName := jsOrStr test.provider config.defaults.provider
  let baseUrl := jsOrOptStr test.base_url config.defaults.base_url
  let attempt : Except String (List TestAssertionResult × ProviderResponse) := do
    let provider ←
      match opts.providerOverride with
      | some p => .ok p
      | none => getProvider plat providerName baseUrl none
    let response ← provider.chat (buildRequest test config)
    let assertionResults ← runAssertionsSeq plat env response test.assertions
    .ok (assertionResults, response)
  match attempt with
  | .error e =>
    { name := test.name, passed := false, assertions := [], error := some e }
  | .ok (assertionResults, response) =>
    { name := test.name
      passed := assertionResults.all (fun ar => ar.result.passed)
      assertions := assertionResults
      response := if opts.verbose then some response else none }

/-- `runAllTests`: strictly sequential accumulation of per-test results,
    then the pass/fail tally. -/
def runAllTests (plat : Platform) (env : JudgeEnv) (config : AgentCIConfig)
    (opts : RunOptions) : RunResult :=
  let results := config.tests.map (fun test => runTest plat env test config opts)
  let passed := (results.filter (fun r => r.passed)).length
  { results := results
    total := results.length
    passed := passed
    failed := results.length - passed }

/-! ## Specification-side definitions

These definitions follow the specification's wording (not the source) and
exist to be compared with the embedded source functions. -/

/-- Spec wording for the demo routing: the ordered keyword groups
    shipping / greeting / refund / technical-support / pricing /
    tool-triggering, each a predicate on the request (keywords tested
    against the lowercased prompt; the tool group additionally requires a
    nonempty tool list). -/
def demoKeywordGroups : List (DemoBranch × (ProviderRequest → Bool)) :=
  [(.shipping, fun r =>
      let p := asciiLower r.prompt
      jsIncludes p "ship" || jsIncludes p "deliver" || jsIncludes p "tracking"),
   (.greeting, fun r =>
      let p := asciiLower r.prompt
      jsIncludes p "hello" || jsIncludes p " hi " || jsIncludes p "help"),
   (.refund, fun r =>
      let p := asciiLower r.prompt
      jsIncludes p "refund" || jsIncludes p "return" || jsIncludes p "money back"),
   (.techSupport, fun r =>
      let p := asciiLower r.prompt
      jsIncludes p "broken" || jsIncludes p "error" || jsIncludes p "not working" || jsIncludes p "bug"),
   (.pricing, fun r =>
      let p := asciiLower r.prompt
      jsIncludes p "price" || jsIncludes p "cost" || jsIncludes p "plan"),
   (.toolScenario, fun r =>
      match r.tools with
      | some (t :: ts) =>
        decide (0 < (t :: ts).length) &&
          (let p := asciiLower r.prompt
           jsIncludes p "weather" || jsIncludes p "search" || jsIncludes p "look up")
      | _ => false)]

/-- First-match selection over an ordered group list, defaulting. -/
def firstMatchIn (r : ProviderRequest) : List (DemoBranch × (ProviderRequest → Bool)) → DemoBranch
  | [] => .fallback
  | (b, p) :: rest => if p r then b else firstMatchIn r rest

/-- The branch the spec's first-match routing selects. -/
def firstMatchBranch (r : ProviderRequest) : DemoBranch :=
  firstMatchIn r demoKeywordGroups

/-- The response each branch produces (the tool branch needs the request's
    first tool; it is never selected without one, and the default response
    stands in for the unreachable no-tool case). -/
def demoBranchResponse (r : ProviderRequest) : DemoBranch → ProviderResponse
  | .shipping => demoShippingResponse
  | .greeting => demoGreetingResponse
  | .refund => demoRefundResponse
  | .techSupport => demoTechResponse
  | .pricing => demoPricingResponse
  | .toolScenario =>
    match r.tools with
    | some (t :: _) => demoToolResponse t (asciiLower r.prompt)
    | _ => demoDefaultResponse
  | .fallback => demoDefaultResponse

/-- Spec wording for verdict extraction: the *first top-level* `{...}` span —
    from the first opening brace to the brace-balanced closing brace
    matching it (brace counting; braces inside JSON string literals do not
    occur in the inputs this definition is applied to). -/
def spanGo : List Char → Nat → Option (List Char)
  | [], _ => none
  | c :: rest, depth =>
    if c = Char.ofNat 123 then Option.map (fun t => c :: t) (spanGo rest (depth + 1))
    else if c = Char.ofNat 125 then
      if depth = 1 then some [c]
      else Option.map (fun t => c :: t) (spanGo rest (depth - 1))
    else Option.map (fun t => c :: t) (spanGo rest depth)

/-- The first top-level `{...}` span of a string, per the spec's wording. -/
def firstTopLevelSpan (s : String) : Option String :=
  match s.data.dropWhile (fun c => c != Char.ofNat 123) with
  | [] => none
  | l => Option.map String.mk (spanGo l 0)

/-! ## Concrete fixtures for witnesses and counterexamples -/

/-- A provider that is never invoked. -/
def unusedProvider : Provider :=
  ⟨"unused", fun _ => .error "unused"⟩

/-- A concrete platform instance for closed evaluations: every ambient
    capability gives a fixed answer. -/
def plainPlatform : Platform :=
  { regexTest := fun _ _ => false
    ajvValidate := fun _ _ => none
    openaiJudge := fun _ _ _ _ => .bad 500 "unused"
    anthropicJudge := fun _ _ _ _ => .bad 500 "unused"
    mkOpenAIProvider := fun _ _ => unusedProvider
    mkAnthropicProvider := fun _ => unusedProvider }

/-- An environment with no judge configuration at all. -/
def emptyEnv : JudgeEnv := {}

/-- An environment with only the Anthropic credential. -/
def anthropicOnlyEnv : JudgeEnv :=
  { anthropicKey := some "anth-key" }

/-- An environment with an explicit Anthropic override but no credential. -/
def anthropicOverrideNoKeyEnv : JudgeEnv :=
  { judgeProvider := "anthropic" }

/-- An environment with both credentials. -/
def bothKeysEnv : JudgeEnv :=
  { openaiKey := some "oa-key", anthropicKey := some "anth-key" }

/-- A plain response with some text and no `tool_calls` field. -/
def plainResponse : ProviderResponse :=
  { content := "hello" }

/-- The stub provider of the four-test scenario: test 3's prompt raises a
    transport error, everything else answers "ok". -/
def scenarioProvider : Provider :=
  ⟨"stub", fun r =>
    if r.prompt = "p3" then .error "transport error"
    else .ok { content := "ok", tool_calls := some [] }⟩

/-- One test of the four-test scenario. -/
def scenarioTest (nm pr : String) : TestCase :=
  { name := nm
    prompt := pr
    assertions := [{ type := "contains", value := some (.str "ok") }] }

/-- The four-test suite: test 3 will hit the transport error. -/
def scenarioConfig : AgentCIConfig :=
  { defaults := { provider := "openai", model := "m" }
    tests := [scenarioTest "t1" "p1", scenarioTest "t2" "p2",
              scenarioTest "t3" "p3", scenarioTest "t4" "p4"] }

/-- Options injecting the stub provider. -/
def scenarioOpts : RunOptions :=
  { providerOverride := some scenarioProvider }

/-- A response of exactly 75 one-letter words. -/
def words75 : String :=
  sepJoin " " (List.replicate 75 "w")

/-- A `max_tokens` assertion with the given bound. -/
def maxTokensAssertion (n : Int) : Assertion :=
  { type := "max_tokens", value := some (.num n) }

/-- A `min_tokens` assertion with the given bound. -/
def minTokensAssertion (n : Int) : Assertion :=
  { type := "min_tokens", value := some (.num n) }

/-- The response of a tool invoked with `{city: "Paris", units: "celsius"}`. -/
def parisResponse : ProviderResponse :=
  { content := ""
    tool_calls := some [⟨"get_weather", [("city", .str "Paris"), ("units", .str "celsius")]⟩] }

/-- A `tool_args` assertion on `get_weather` expecting the given city. -/
def cityAssertion (city : String) : Assertion :=
  { type := "tool_args", name := some "get_weather", contains := some [("city", .str city)] }

/-- A `tool_called` assertion on `get_weather`. -/
def weatherCalledAssertion : Assertion :=
  { type := "tool_called", name := some "get_weather" }

/-- A request whose prompt contains both a greeting keyword and "ship". -/
def shipAndGreetRequest : ProviderRequest :=
  { model := "demo", prompt := "Hello, when will you ship my order?" }

/-- The judge reply refuting the "first top-level span" reading: its first
    top-level span is a passing verdict, but the whole span from the first
    to the last brace is not valid JSON. -/
def twoObjectReply : String :=
  "\x7b\"pass\":true\x7d and \x7b\"x\":1\x7d"

/-- A judge verdict wrapped in a fenced code block (the repository's own
    test input). -/
def fencedReply : String :=
  "\x60\x60\x60json\n\x7b\"pass\": true, \"reasoning\": \"Correct\"\x7d\n\x60\x60\x60"

/-- The exact-placeholder string `{{key}}`. -/
def placeholderOf (key : String) : String :=
  String.mk (Char.ofNat 123 :: Char.ofNat 123 ::
    (key.data ++ [Char.ofNat 125, Char.ofNat 125]))

/-- A test case resolving to the `http` provider through the suite default. -/
def httpTestCase : TestCase :=
  { name := "http test"
    prompt := "hello"
    assertions := [{ type := "contains", value := some (.str "hi") }] }

/-- A config whose default provider is the config-valid name `http`. -/
def httpConfig : AgentCIConfig :=
  { defaults := { provider := "http", model := "my-agent",
                  base_url := some "http://localhost:8000/api/chat" }
    tests := [httpTestCase] }

/-- A response whose `tool_calls` field is present but empty. -/
def emptyCallsResponse : ProviderResponse :=
  { content := "The weather is nice", tool_calls := some [] }

/-- A concrete interpolation value map: a numeric `temperature` and a string
    `prompt`, everything else absent. -/
def sampleValues : String → Option Json :=
  fun k =>
    if k = "temperature" then some (.num 0)
    else if k = "prompt" then some (.str "What is 2+2?") else none

/-! # Theorems

Helper lemmas first, then one theorem (plus witness or counterexample where
required) per specification claim. -/

/-- Strings with equal character lists are equal. -/
theorem str_ext {a b : String} (h : a.data = b.data) : a = b := by
  cases a; cases b; exact congrArg String.mk h

/-- `listStartsWith` characterized by list append. -/
theorem listStartsWith_iff (n h : List Char) :
    listStartsWith n h = true ↔ ∃ t, h = n ++ t := by
  induction n generalizing h with
  | nil =>
    simp only [listStartsWith, List.nil_append]
    exact iff_of_true trivial ⟨h, rfl⟩
  | cons a as ih =>
    cases h with
    | nil =>
      simp only [listStartsWith]
      constructor
      · intro hfalse; exact absurd hfalse (by simp)
      · rintro ⟨t, ht⟩; cases ht
    | cons b bs =>
      simp only [listStartsWith, Bool.and_eq_true, beq_iff_eq, ih]
      constructor
      · rintro ⟨rfl, t, rfl⟩; exact ⟨t, rfl⟩
      · rintro ⟨t, ht⟩
        injection ht with h1 h2
        exact ⟨h1.symm, t, h2⟩

/-- `listContainsSeq` characterized by a two-sided append decomposition. -/
theorem listContainsSeq_iff (n h : List Char) :
    listContainsSeq n h = true ↔ ∃ p t, h = p ++ n ++ t := by
  induction h with
  | nil =>
    simp only [listContainsSeq, List.isEmpty_iff]
    constructor
    · rintro rfl; exact ⟨[], [], rfl⟩
    · rintro ⟨p, t, ht⟩
      rcases List.append_eq_nil.mp (List.append_eq_nil.mp ht.symm).1 with ⟨_, hn⟩
      exact hn
  | cons c cs ih =>
    simp only [listContainsSeq, Bool.or_eq_true, listStartsWith_iff, ih]
    constructor
    · rintro (⟨t, ht⟩ | ⟨p, t, ht⟩)
      · exact ⟨[], t, by simpa using ht⟩
      · exact ⟨c :: p, t, by simp [ht]⟩
    · rintro ⟨p, t, ht⟩
      cases p with
      | nil => exact .inl ⟨t, by simpa using ht⟩
      | cons q qs =>
        injection ht with h1 h2
        exact .inr ⟨qs, t, h2⟩

/-- A member of a joined list is a substring of the join. -/
theorem mem_sepJoin_decomp (sep : String) (l : List String) (x : String) (hx : x ∈ l) :
    ∃ p t, (sepJoin sep l).data = p ++ x.data ++ t := by
  induction l with
  | nil => cases hx
  | cons a as ih =>
    cases as with
    | nil =>
      rcases List.mem_singleton.mp hx with rfl
      exact ⟨[], [], by simp [sepJoin]⟩
    | cons b bs =>
      rcases List.mem_cons.mp hx with rfl | hmem
      · refine ⟨[], (sep ++ sepJoin sep (b :: bs)).data, ?_⟩
        simp [sepJoin, String.data_append]
      · rcases ih hmem with ⟨p, t, hpt⟩
        refine ⟨(a ++ sep).data ++ p, t, ?_⟩
        simp [sepJoin, String.data_append, hpt]

/-- `jsIncludes` holds for any needle that appears inside an append
    decomposition of the haystack. -/
theorem jsIncludes_of_decomp (hay needle : String)
    (h : ∃ p t, hay.data = p ++ needle.data ++ t) : jsIncludes hay needle = true := by
  unfold jsIncludes
  rcases h with ⟨p, t, hpt⟩
  rw [listContainsSeq_iff]
  exact ⟨p, t, hpt⟩

/-- The exact-ceiling characterization of `Math.ceil(w / 0.75)`. -/
theorem nat_ceil_four_thirds (w : ℕ) :
    Nat.ceil ((w : ℚ) / (3 / 4 : ℚ)) = (4 * w + 2) / 3 := by
  have h3 : (0 : ℚ) < 3 := by norm_num
  have hrw : (w : ℚ) / (3 / 4 : ℚ) = ((4 * w : ℕ) : ℚ) / 3 := by push_cast; ring
  rw [hrw]
  generalize 4 * w = a
  apply le_antisymm
  · rw [Nat.ceil_le, div_le_iff₀ h3]
    have ha : (a : ℕ) ≤ ((a + 2) / 3) * 3 := by omega
    exact_mod_cast ha
  · have h := Nat.le_ceil ((a : ℚ) / 3)
    have h2 : (a : ℚ) ≤ 3 * (Nat.ceil ((a : ℚ) / 3) : ℚ) := by
      rw [div_le_iff₀ h3] at h; linarith
    have h4 : a ≤ 3 * Nat.ceil ((a : ℚ) / 3) := by exact_mod_cast h2
    omega

/-- The token estimate as an executable integer formula. -/
theorem estimateTokens_eq (s : String) :
    estimateTokens s = (4 * countWords s + 2) / 3 := by
  unfold estimateTokens
  exact nat_ceil_four_thirds (countWords s)

/-- The demo chat equals the spec's first-match routing (helper for the
    routing claim). -/
theorem demo_first_match (r : ProviderRequest) :
    demoChat r = demoBranchResponse r (firstMatchBranch r) := by
  simp only [demoChat, firstMatchBranch, demoKeywordGroups, firstMatchIn]
  by_cases h1 : (jsIncludes (asciiLower r.prompt) "ship" || jsIncludes (asciiLower r.prompt) "deliver" || jsIncludes (asciiLower r.prompt) "tracking") = true
  · simp [h1, demoBranchResponse]
  · simp only [h1, if_false, Bool.false_eq_true, ite_false]
    by_cases h2 : (jsIncludes (asciiLower r.prompt) "hello" || jsIncludes (asciiLower r.prompt) " hi " || jsIncludes (asciiLower r.prompt) "help") = true
    · simp [h2, demoBranchResponse]
    · simp only [h2, Bool.false_eq_true, ite_false]
      by_cases h3 : (jsIncludes (asciiLower r.prompt) "refund" || jsIncludes (asciiLower r.prompt) "return" || jsIncludes (asciiLower r.prompt) "money back") = true
      · simp [h3, demoBranchResponse]
      · simp only [h3, Bool.false_eq_true, ite_false]
        by_cases h4 : (jsIncludes (asciiLower r.prompt) "broken" || jsIncludes (asciiLower r.prompt) "error" || jsIncludes (asciiLower r.prompt) "not working" || jsIncludes (asciiLower r.prompt) "bug") = true
        · simp [h4, demoBranchResponse]
        · simp only [h4, Bool.false_eq_true, ite_false]
          by_cases h5 : (jsIncludes (asciiLower r.prompt) "price" || jsIncludes (asciiLower r.prompt) "cost" || jsIncludes (asciiLower r.prompt) "plan") = true
          · simp [h5, demoBranchResponse]
          · simp only [h5, Bool.false_eq_true, ite_false]
            rcases htools : r.tools with _ | ⟨_ | ⟨t, ts⟩⟩
            · simp [htools, demoBranchResponse]
            · simp [htools, demoBranchResponse]
            · by_cases h6 : (jsIncludes (asciiLower r.prompt) "weather" || jsIncludes (asciiLower r.prompt) "search" || jsIncludes (asciiLower r.prompt) "look up") = true
              · simp [htools, h6, demoBranchResponse]
              · simp [htools, h6, demoBranchResponse]

/-- C8: the mock adapter routes by first match over the keyword groups in
    the order shipping, greeting, refund, technical-support, pricing,
    tool-triggering, default; a prompt containing "ship" routes to the
    shipping branch even when it also contains a greeting keyword; the
    adapter is a deterministic pure function of the request (it is embedded
    as a Lean function, so the same request always yields the same
    response). -/
theorem demo_routing_first_match_precedence :
    (∀ r : ProviderRequest, demoChat r = demoBranchResponse r (firstMatchBranch r))
    ∧ jsIncludes (asciiLower shipAndGreetRequest.prompt) "ship" = true
    ∧ jsIncludes (asciiLower shipAndGreetRequest.prompt) "hello" = true
    ∧ firstMatchBranch shipAndGreetRequest = DemoBranch.shipping
    ∧ demoChat shipAndGreetRequest = demoShippingResponse :=
  ⟨demo_first_match, by decide, by decide, by decide, by decide⟩

/-- C10 counterexample: the demo shipping response omits `tool_calls`, and
    evaluating a `tool_called` assertion against it rejects with a
    `TypeError` instead of returning a "no tool calls made" result. -/
theorem demo_tool_called_absent_list_throws :
    (demoChat shipAndGreetRequest).tool_calls = none
    ∧ runAssertion plainPlatform emptyEnv (demoChat shipAndGreetRequest) weatherCalledAssertion
        = .error "Cannot read properties of undefined (reading \x27some\x27)"
    ∧ runAssertion plainPlatform emptyEnv (demoChat shipAndGreetRequest)
        (cityAssertion "Paris")
        = .error "Cannot read properties of undefined (reading \x27find\x27)" := by
  refine ⟨by decide, rfl, rfl⟩

/-- C10 (amended): every demo response to a request offering no tools omits
    the `tool_calls` field; evaluating `tool_called` or `tool_args` against
    a response without that field throws (the runner's catch then records a
    test-level error); the "no tool calls made" message appears only when
    the field is present and empty. -/
theorem tool_assertions_throw_on_absent_list :
    (∀ r : ProviderRequest, r.tools = none → (demoChat r).tool_calls = none)
    ∧ (∀ plat env resp (a : Assertion), resp.tool_calls = none → a.type = "tool_called" →
        runAssertion plat env resp a =
          .error "Cannot read properties of undefined (reading \x27some\x27)")
    ∧ (∀ plat env resp (a : Assertion), resp.tool_calls = none → a.type = "tool_args" →
        runAssertion plat env resp a =
          .error "Cannot read properties of undefined (reading \x27find\x27)")
    ∧ (∀ plat env resp (a : Assertion), resp.tool_calls = some [] → a.type = "tool_called" →
        a.name = some "get_weather" →
        runAssertion plat env resp a =
          .ok ⟨false, "expected get_weather to be called, but no tool calls made"⟩) := by
  refine ⟨?_, ?_, ?_, ?_⟩
  · intro r hr
    unfold demoChat
    simp only [hr]
    repeat' split
    all_goals rfl
  · intro plat env resp a hr ht
    simp [runAssertion, registry, List.lookup, ht, assertToolCalled, hr]
  · intro plat env resp a hr ht
    simp [runAssertion, registry, List.lookup, ht, assertToolArgs, hr]
  · intro plat env resp a hr ht hn
    simp [runAssertion, registry, List.lookup, ht, assertToolCalled, hr, hn,
      toolNameRender, sepJoin]

/-- C10 witness: the amended theorem applied to the ship-and-greet demo
    request, the plain response, and the empty-calls response. -/
theorem tool_assertions_throw_on_absent_list_witness :
    (demoChat shipAndGreetRequest).tool_calls = none
    ∧ runAssertion plainPlatform emptyEnv plainResponse weatherCalledAssertion
        = .error "Cannot read properties of undefined (reading \x27some\x27)"
    ∧ runAssertion plainPlatform emptyEnv plainResponse (cityAssertion "Paris")
        = .error "Cannot read properties of undefined (reading \x27find\x27)"
    ∧ runAssertion plainPlatform emptyEnv emptyCallsResponse weatherCalledAssertion
        = .ok ⟨false, "expected get_weather to be called, but no tool calls made"⟩ :=
  ⟨tool_assertions_throw_on_absent_list.1 shipAndGreetRequest rfl,
   tool_assertions_throw_on_absent_list.2.1 plainPlatform emptyEnv plainResponse
     weatherCalledAssertion rfl rfl,
   tool_assertions_throw_on_absent_list.2.2.1 plainPlatform emptyEnv plainResponse
     (cityAssertion "Paris") rfl rfl,
   tool_assertions_throw_on_absent_list.2.2.2 plainPlatform emptyEnv emptyCallsResponse
     weatherCalledAssertion rfl rfl rfl⟩

/-- C5: the config layer accepts exactly `openai`, `anthropic` and `http`,
    and the two hosted names construct their adapters — but `getProvider`
    has no `http` case: the config-valid name `http` throws
    `Unknown provider: http`, which `runTest` records as a test-level
    error, so the generic HTTP adapter is never instantiated by the
    runner. -/
theorem http_provider_unreachable_despite_config :
    validateDefaultsProvider "http" = .ok ()
    ∧ (∀ plat baseUrl apiKey,
        getProvider plat "http" baseUrl apiKey = .error "Unknown provider: http")
    ∧ (∀ plat baseUrl apiKey,
        getProvider plat "openai" baseUrl apiKey = .ok (plat.mkOpenAIProvider apiKey baseUrl))
    ∧ (∀ plat baseUrl apiKey,
        getProvider plat "anthropic" baseUrl apiKey = .ok (plat.mkAnthropicProvider apiKey))
    ∧ runTest plainPlatform emptyEnv httpTestCase httpConfig {} =
        { name := "http test", passed := false, assertions := [],
          error := some "Unknown provider: http" } := by
  refine ⟨rfl, fun _ _ _ => rfl, fun _ _ _ => rfl, fun _ _ _ => rfl, rfl⟩

/-- C2: the runner executes test cases strictly sequentially (the result
    list is the in-order map of `runTest` over the declared tests, with the
    tallies derived from it); a test whose provider call rejects yields a
    failed `TestResult` with the error captured and no assertion results,
    leaving sibling tests untouched; and the concrete four-test suite in
    which exactly test 3 raises a transport error produces
    `total=4, passed=3, failed=1` with test 3's assertions empty and its
    error populated. -/
theorem runner_sequential_and_error_capture :
    (∀ plat env test config (p : Provider) (e : String) (verb : Bool),
      p.chat (buildRequest test config) = .error e →
      runTest plat env test config ⟨verb, some p⟩ =
        { name := test.name, passed := false, assertions := [], error := some e })
    ∧ (∀ plat env config opts,
        (runAllTests plat env config opts).results =
          config.tests.map (fun t => runTest plat env t config opts)
        ∧ (runAllTests plat env config opts).total = config.tests.length
        ∧ (runAllTests plat env config opts).passed =
            ((config.tests.map (fun t => runTest plat env t config opts)).filter
              (fun r => r.passed)).length
        ∧ (runAllTests plat env config opts).failed =
            (runAllTests plat env config opts).total - (runAllTests plat env config opts).passed)
    ∧ runAllTests plainPlatform emptyEnv scenarioConfig scenarioOpts =
        { results := [
            { name := "t1", passed := true,
              assertions := [⟨{ type := "contains", value := some (.str "ok") },
                              ⟨true, "contains \"ok\""⟩⟩] },
            { name := "t2", passed := true,
              assertions := [⟨{ type := "contains", value := some (.str "ok") },
                              ⟨true, "contains \"ok\""⟩⟩] },
            { name := "t3", passed := false, assertions := [],
              error := some "transport error" },
            { name := "t4", passed := true,
              assertions := [⟨{ type := "contains", value := some (.str "ok") },
                              ⟨true, "contains \"ok\""⟩⟩] }],
          total := 4, passed := 3, failed := 1 } := by
  refine ⟨?_, ?_, rfl⟩
  · intro plat env test config p e verb h
    simp [runTest, h, Bind.bind, Except.bind]
  · intro plat env config opts
    exact ⟨rfl, by simp [runAllTests], rfl, rfl⟩

/-- C2 witness: the error-capture part applied to test 3 of the concrete
    scenario. -/
theorem runner_sequential_and_error_capture_witness :
    runTest plainPlatform emptyEnv (scenarioTest "t3" "p3") scenarioConfig
        ⟨false, some scenarioProvider⟩ =
      { name := "t3", passed := false, assertions := [], error := some "transport error" } :=
  runner_sequential_and_error_capture.1 plainPlatform emptyEnv (scenarioTest "t3" "p3")
    scenarioConfig scenarioProvider "transport error" false rfl

/-- C6: the token estimate is the exact ceiling `ceil(wordCount / 0.75)`
    (its integer form `(4w + 2) / 3` is proved, the definition being the
    rational ceiling itself); a 75-word response estimates to 100 tokens, so
    `max_tokens` 100 passes and 99 fails with the exact messages; and
    `min_tokens` passes iff the estimate is at least the asserted value. -/
theorem token_estimation_formula :
    (∀ s : String, estimateTokens s = (4 * countWords s + 2) / 3)
    ∧ countWords words75 = 75
    ∧ estimateTokens words75 = 100
    ∧ (∀ resp : ProviderResponse, countWords resp.content = 75 →
        assertMaxTokens resp (maxTokensAssertion 100) =
          .ok ⟨true, "response ~100 tokens <= 100 max"⟩
        ∧ assertMaxTokens resp (maxTokensAssertion 99) =
          .ok ⟨false, "expected response to be under 99 tokens, but got ~100"⟩)
    ∧ (∀ (resp : ProviderResponse) (n : Int),
        (assertMinTokens resp (minTokensAssertion n)).map (fun r => r.passed) =
          .ok (decide (n ≤ (estimateTokens resp.content : Int)))) := by
  refine ⟨estimateTokens_eq, by decide, ?_, ?_, ?_⟩
  · rw [estimateTokens_eq]; decide
  · intro resp h
    constructor
    · simp only [assertMaxTokens, maxTokensAssertion, estimateTokens_eq, h, assertValueRender]
      rfl
    · simp only [assertMaxTokens, maxTokensAssertion, estimateTokens_eq, h, assertValueRender]
      rfl
  · intro resp n
    simp [assertMinTokens, minTokensAssertion, Except.map]

/-- C6 witness: the 75-word response itself. -/
theorem token_estimation_formula_witness :
    estimateTokens words75 = (4 * countWords words75 + 2) / 3
    ∧ (assertMaxTokens { content := words75 } (maxTokensAssertion 100) =
        .ok ⟨true, "response ~100 tokens <= 100 max"⟩
      ∧ assertMaxTokens { content := words75 } (maxTokensAssertion 99) =
        .ok ⟨false, "expected response to be under 99 tokens, but got ~100"⟩)
    ∧ (assertMinTokens { content := words75 } (minTokensAssertion 100)).map
        (fun r => r.passed) = .ok (decide ((100 : Int) ≤ (estimateTokens words75 : Int))) :=
  ⟨token_estimation_formula.1 words75,
   token_estimation_formula.2.2.2.1 { content := words75 } (by decide),
   token_estimation_formula.2.2.2.2 { content := words75 } 100⟩

/-- A lookup misses when the key is absent from the key list. -/
theorem lookup_none_of_not_mem_keys (l : List (String × AssertionFn)) (t : String)
    (h : t ∉ l.map (fun kv => kv.1)) : l.lookup t = none := by
  induction l with
  | nil => rfl
  | cons kv rest ih =>
    simp only [List.map, List.mem_cons] at h
    push_neg at h
    have hbeq : (t == kv.1) = false := beq_eq_false_iff_ne.mpr h.1
    simp [List.lookup, hbeq, ih h.2]

/-- C1 counterexample: a `contains` assertion with no `value` field makes
    evaluation through the registry reject with a `TypeError`
    (`undefined.toLowerCase()`), not return a failed `AssertionResult`. -/
theorem contains_missing_value_throws :
    runAssertion plainPlatform emptyEnv plainResponse { type := "contains" } =
      .error "Cannot read properties of undefined (reading \x27toLowerCase\x27)" := rfl

/-- C1 (amended): an unregistered assertion type always yields the failed
    `unknown assertion type` result, never a rejection, and the judge
    evaluators fail locally on an absent `value`; but the synchronous
    evaluators do not guard their fields — a `contains` assertion with no
    `value` rejects with a `TypeError` (which the runner catches as a
    test-level error). -/
theorem assertion_error_handling :
    (∀ plat env resp (a : Assertion), a.type ∉ getAssertionTypes →
      runAssertion plat env resp a =
        .ok ⟨false, "unknown assertion type: \"" ++ a.type ++ "\""⟩)
    ∧ (∀ plat env resp (a : Assertion), a.type = "llm_judge" → a.value = none →
      runAssertion plat env resp a =
        .ok ⟨false, "llm_judge requires a \x27value\x27 field with the evaluation criterion"⟩)
    ∧ (∀ plat env resp (a : Assertion), a.type = "contains" → a.value = none →
      runAssertion plat env resp a =
        .error "Cannot read properties of undefined (reading \x27toLowerCase\x27)") := by
  refine ⟨?_, ?_, ?_⟩
  · intro plat env resp a h
    unfold runAssertion
    rw [lookup_none_of_not_mem_keys registry a.type h]
  · intro plat env resp a ht hv
    simp [runAssertion, registry, ht, List.lookup, assertLlmJudge, hv, assertValueTruthy]
  · intro plat env resp a ht hv
    simp [runAssertion, registry, ht, List.lookup, assertContains, hv]

/-- C1 witness: the three parts at the type `nonexistent`, an empty
    `llm_judge` assertion, and an empty `contains` assertion. -/
theorem assertion_error_handling_witness :
    runAssertion plainPlatform emptyEnv plainResponse { type := "nonexistent" } =
      .ok ⟨false, "unknown assertion type: \"nonexistent\""⟩
    ∧ runAssertion plainPlatform emptyEnv plainResponse { type := "llm_judge" } =
      .ok ⟨false, "llm_judge requires a \x27value\x27 field with the evaluation criterion"⟩
    ∧ runAssertion plainPlatform emptyEnv plainResponse { type := "sentiment", value := some (.str "") } =
      .ok ⟨false, "sentiment requires a \x27value\x27 field with the expected tone"⟩
    ∧ runAssertion plainPlatform emptyEnv
        { content := "x" } { type := "contains" } =
      .error "Cannot read properties of undefined (reading \x27toLowerCase\x27)" :=
  ⟨assertion_error_handling.1 plainPlatform emptyEnv plainResponse
     { type := "nonexistent" } (by decide),
   assertion_error_handling.2.1 plainPlatform emptyEnv plainResponse
     { type := "llm_judge" } rfl rfl,
   rfl,
   assertion_error_handling.2.2 plainPlatform emptyEnv { content := "x" }
     { type := "contains" } rfl rfl⟩

/-- C3: judge backend selection.  An explicit override whose credential is
    absent fails locally with the descriptive error — the result is the
    same for every platform, so no HTTP call is made; otherwise OpenAI is
    chosen when its key is present, else Anthropic when its key is present
    (with only the Anthropic key the call is exactly one
    `callJudgeAnthropic` carrying the default judge model unless the model
    override is nonempty — that is the `jsOrStr` argument); with neither
    key the call fails locally with the `No API key found for judge`
    message. -/
theorem judge_backend_selection_policy :
    (∀ plat env sys usr, asciiLower (JudgeEnv.judgeProvider env) = "anthropic" →
      strTruthy env.anthropicKey = false →
      callJudge plat env sys usr =
        .ok ⟨false, "AGENTCI_JUDGE_PROVIDER=anthropic but ANTHROPIC_API_KEY not set"⟩)
    ∧ (∀ plat env sys usr, asciiLower (JudgeEnv.judgeProvider env) = "openai" →
      strTruthy env.openaiKey = false →
      callJudge plat env sys usr =
        .ok ⟨false, "AGENTCI_JUDGE_PROVIDER=openai but OPENAI_API_KEY not set"⟩)
    ∧ (∀ plat env sys usr, asciiLower (JudgeEnv.judgeProvider env) ≠ "anthropic" →
      asciiLower (JudgeEnv.judgeProvider env) ≠ "openai" →
      strTruthy env.openaiKey = true →
      callJudge plat env sys usr =
        callJudgeOpenAI plat env sys usr (jsOrStr (some env.judgeModel) "gpt-4o-mini"))
    ∧ (∀ plat env sys usr, asciiLower (JudgeEnv.judgeProvider env) ≠ "anthropic" →
      asciiLower (JudgeEnv.judgeProvider env) ≠ "openai" →
      strTruthy env.openaiKey = false → strTruthy env.anthropicKey = true →
      callJudge plat env sys usr =
        callJudgeAnthropic plat env sys usr
          (jsOrStr (some env.judgeModel) "claude-sonnet-4-20250514"))
    ∧ (∀ plat env sys usr, asciiLower (JudgeEnv.judgeProvider env) ≠ "anthropic" →
      asciiLower (JudgeEnv.judgeProvider env) ≠ "openai" →
      strTruthy env.openaiKey = false → strTruthy env.anthropicKey = false →
      callJudge plat env sys usr =
        .ok ⟨false, "No API key found for judge. Set OPENAI_API_KEY or ANTHROPIC_API_KEY."⟩) := by
  refine ⟨?_, ?_, ?_, ?_, ?_⟩
  · intro plat env sys usr h1 h2
    simp [callJudge, detectJudgeBackend, h1, h2]
  · intro plat env sys usr h1 h2
    simp [callJudge, detectJudgeBackend, h1, h2]
  · intro plat env sys usr h1 h2 h3
    simp [callJudge, detectJudgeBackend, h1, h2, h3]
  · intro plat env sys usr h1 h2 h3 h4
    simp [callJudge, detectJudgeBackend, h1, h2, h3, h4]
  · intro plat env sys usr h1 h2 h3 h4
    simp [callJudge, detectJudgeBackend, h1, h2, h3, h4]

/-- C3 witness: the policy at four concrete environments (explicit override
    without its credential; Anthropic-only; both keys; no keys). -/
theorem judge_backend_selection_policy_witness :
    callJudge plainPlatform anthropicOverrideNoKeyEnv "s" "u" =
      .ok ⟨false, "AGENTCI_JUDGE_PROVIDER=anthropic but ANTHROPIC_API_KEY not set"⟩
    ∧ callJudge plainPlatform anthropicOnlyEnv "s" "u" =
      callJudgeAnthropic plainPlatform anthropicOnlyEnv "s" "u" "claude-sonnet-4-20250514"
    ∧ callJudge plainPlatform bothKeysEnv "s" "u" =
      callJudgeOpenAI plainPlatform bothKeysEnv "s" "u" "gpt-4o-mini"
    ∧ callJudge plainPlatform emptyEnv "s" "u" =
      .ok ⟨false, "No API key found for judge. Set OPENAI_API_KEY or ANTHROPIC_API_KEY."⟩ :=
  ⟨judge_backend_selection_policy.1 plainPlatform anthropicOverrideNoKeyEnv "s" "u"
     (by decide) rfl,
   judge_backend_selection_policy.2.2.2.1 plainPlatform anthropicOnlyEnv "s" "u"
     (by decide) (by decide) rfl (by decide),
   judge_backend_selection_policy.2.2.1 plainPlatform bothKeysEnv "s" "u"
     (by decide) (by decide) (by decide),
   judge_backend_selection_policy.2.2.2.2 plainPlatform emptyEnv "s" "u"
     (by decide) (by decide) rfl rfl⟩

/-- `s.slice(0, n)` is at most `n` characters long. -/
theorem strTake_length_le (s : String) (n : Nat) : (strTake s n).length ≤ n := by
  show (s.data.take n).length ≤ n
  simp [List.length_take]

/-- A successfully decoded verdict's explanation is at most 500 characters. -/
theorem decode_reasoning_le (p : Json) (r : JudgeResponse)
    (h : decodeJudgeVerdict p = .ok r) : r.reasoning.length ≤ 500 := by
  simp only [decodeJudgeVerdict] at h
  split at h
  · cases h
  · split at h
    · cases h
      exact strTake_length_le _ _
    · cases h

/-- C4 counterexample: on a reply holding two objects, the first top-level
    `{...}` span decodes to a passing verdict, but `parseJudgeResponse`
    (which extracts greedily from the first `{` to the last `}`) fails to
    decode and returns a failed verdict — so the parser does not extract
    the first top-level span. -/
theorem judge_parse_not_first_top_level_span :
    firstTopLevelSpan twoObjectReply = some "\x7b\"pass\":true\x7d"
    ∧ parseJudgeResponse "\x7b\"pass\":true\x7d" = ⟨true, "No reasoning provided"⟩
    ∧ greedyBraceSpan twoObjectReply = some twoObjectReply
    ∧ parseJudgeResponse twoObjectReply =
        ⟨false, "Failed to parse judge response: \x7b\"pass\":true\x7d and \x7b\"x\":1\x7d"⟩ :=
  ⟨rfl, rfl, rfl, rfl⟩

/-- C4 (amended): verdict parsing extracts the greedy span from the first
    `{` to the last `}` (not the first top-level span) before JSON-decoding
    — a verdict wrapped in a fenced code block therefore still parses, with
    `pass`/`passed` and `reasoning`/`reason` both accepted — the
    explanation is truncated to at most 500 characters, and an undecodable
    reply becomes a failed verdict carrying the truncated reply, never a
    rejection. -/
theorem judge_parse_greedy_recovery :
    parseJudgeResponse fencedReply = ⟨true, "Correct"⟩
    ∧ parseJudgeResponse "\x7b\"passed\": true, \"reason\": \"r\"\x7d" = ⟨true, "r"⟩
    ∧ (∀ content, jsonParse ((greedyBraceSpan content).getD content) = none →
        parseJudgeResponse content =
          ⟨false, "Failed to parse judge response: " ++ strTake content 200⟩)
    ∧ (∀ content, (parseJudgeResponse content).reasoning.length ≤ 500) := by
  refine ⟨rfl, rfl, ?_, ?_⟩
  · intro content h
    simp [parseJudgeResponse, h]
  · intro content
    simp only [parseJudgeResponse]
    split
    · have h1 := strTake_length_le content 200
      simp only [String.length_append]
      have h2 : ("Failed to parse judge response: " : String).length = 32 := rfl
      omega
    · split
      · exact decode_reasoning_le _ _ (by assumption)
      · have h1 := strTake_length_le content 200
        simp only [String.length_append]
        have h2 : ("Failed to parse judge response: " : String).length = 32 := rfl
        omega

/-- C4 witness: the undecodable-reply part at a plain-text reply. -/
theorem judge_parse_greedy_recovery_witness :
    parseJudgeResponse "not json at all" =
      ⟨false, "Failed to parse judge response: " ++ strTake "not json at all" 200⟩ :=
  judge_parse_greedy_recovery.2.2.1 "not json at all" rfl

/-- A filtered map is empty exactly when the function returns `none` on
    every element. -/
theorem filterMap_isEmpty_eq_all {α β : Type} (f : α → Option β) (l : List α) :
    (l.filterMap f).isEmpty = l.all (fun a => (f a).isNone) := by
  induction l with
  | nil => rfl
  | cons a t ih =>
    simp only [List.filterMap_cons, List.all_cons]
    cases hf : f a <;> simp [hf, ih]

/-- A key yields no mismatch entry exactly when the stringified actual and
    expected values agree. -/
theorem toolArgMismatch_isNone (args : List (String × Json)) (k : String) (v : Json) :
    (toolArgMismatch args k v).isNone =
      (stringifyOpt (args.lookup k) == some (jsonStringify v)) := by
  simp only [toolArgMismatch]
  split <;> simp_all

/-- C7: when the named tool was invoked, `tool_args` passes iff every key of
    the asserted `contains` mapping is `JSON.stringify`-equal to the actual
    argument for that key (extra actual keys are ignored — the condition
    ranges only over the asserted keys); on failure the message names every
    mismatching key; and the concrete Paris/London instances behave as
    specified. -/
theorem tool_args_subset_matching :
    (∀ (resp : ProviderResponse) (a : Assertion) (calls : List ToolCall) (tc : ToolCall)
        (expected : List (String × Json)),
      resp.tool_calls = some calls → a.contains = some expected →
      calls.find? (toolNameMatches a) = some tc →
      (assertToolArgs resp a).map (fun r => r.passed) =
        .ok (expected.all (fun kv =>
          stringifyOpt (tc.arguments.lookup kv.1) == some (jsonStringify kv.2))))
    ∧ (∀ (resp : ProviderResponse) (a : Assertion) (calls : List ToolCall) (tc : ToolCall)
        (expected : List (String × Json)) (k : String) (v : Json),
      resp.tool_calls = some calls → a.contains = some expected →
      calls.find? (toolNameMatches a) = some tc →
      (k, v) ∈ expected →
      stringifyOpt (tc.arguments.lookup k) ≠ some (jsonStringify v) →
      (assertToolArgs resp a).map (fun r => jsIncludes r.message (k ++ ": expected ")) =
        .ok true)
    ∧ assertToolArgs parisResponse (cityAssertion "Paris") =
        .ok ⟨true, "tool \"get_weather\" called with expected args"⟩
    ∧ assertToolArgs parisResponse (cityAssertion "London") =
        .ok ⟨false,
          "tool \"get_weather\" args mismatch: city: expected \"London\", got \"Paris\""⟩ := by
  refine ⟨?_, ?_, rfl, rfl⟩
  · intro resp a calls tc expected hr hc hfind
    simp only [assertToolArgs, hr, hc, hfind, Except.map]
    congr 1
    rw [filterMap_isEmpty_eq_all]
    simp only [toolArgMismatch_isNone]
  · intro resp a calls tc expected k v hr hc hfind hkv hmm
    simp only [assertToolArgs, hr, hc, hfind, Except.map]
    have hentry : toolArgMismatch tc.arguments k v =
        some (k ++ ": expected " ++ jsonStringify v ++ ", got " ++
          stringifyOptRender (tc.arguments.lookup k)) := by
      simp [toolArgMismatch, hmm]
    set entry := k ++ ": expected " ++ jsonStringify v ++ ", got " ++
      stringifyOptRender (tc.arguments.lookup k) with hentrydef
    have hmem : entry ∈ expected.filterMap (fun kv => toolArgMismatch tc.arguments kv.1 kv.2) :=
      List.mem_filterMap.mpr ⟨(k, v), hkv, hentry⟩
    have hne : (expected.filterMap (fun kv => toolArgMismatch tc.arguments kv.1 kv.2)).isEmpty
        = false := by
      cases hcase : expected.filterMap (fun kv => toolArgMismatch tc.arguments kv.1 kv.2) with
      | nil => rw [hcase] at hmem; cases hmem
      | cons x xs => rfl
    rw [hne]
    simp only [if_false, Bool.false_eq_true, ite_false, Except.ok.injEq]
    apply jsIncludes_of_decomp
    rcases mem_sepJoin_decomp "; " _ entry hmem with ⟨p, t, hpt⟩
    refine ⟨("tool \"" ++ toolNameRender a ++ "\" args mismatch: ").data ++ p,
            (jsonStringify v ++ ", got " ++ stringifyOptRender (tc.arguments.lookup k)).data ++ t,
            ?_⟩
    rw [String.data_append, hpt, hentrydef]
    simp [String.data_append]

/-- C7 witness: the subset-matching characterization and the
    mismatch-naming part at the Paris/London instances. -/
theorem tool_args_subset_matching_witness :
    (assertToolArgs parisResponse (cityAssertion "Paris")).map (fun r => r.passed) = .ok true
    ∧ (assertToolArgs parisResponse (cityAssertion "London")).map (fun r => r.passed) = .ok false
    ∧ (assertToolArgs parisResponse (cityAssertion "London")).map
        (fun r => jsIncludes r.message ("city" ++ ": expected ")) = .ok true :=
  ⟨tool_args_subset_matching.1 parisResponse (cityAssertion "Paris")
     [⟨"get_weather", [("city", .str "Paris"), ("units", .str "celsius")]⟩]
     ⟨"get_weather", [("city", .str "Paris"), ("units", .str "celsius")]⟩
     [("city", .str "Paris")] rfl rfl rfl,
   tool_args_subset_matching.1 parisResponse (cityAssertion "London")
     [⟨"get_weather", [("city", .str "Paris"), ("units", .str "celsius")]⟩]
     ⟨"get_weather", [("city", .str "Paris"), ("units", .str "celsius")]⟩
     [("city", .str "London")] rfl rfl rfl,
   tool_args_subset_matching.2.1 parisResponse (cityAssertion "London")
     [⟨"get_weather", [("city", .str "Paris"), ("units", .str "celsius")]⟩]
     ⟨"get_weather", [("city", .str "Paris"), ("units", .str "celsius")]⟩
     [("city", .str "London")] "city" (.str "London") rfl rfl rfl (by decide) (by decide)⟩

/-- `takeWhile` over an append stops exactly at the boundary when every
    left element satisfies the predicate and the first right element does
    not. -/
theorem takeWhile_append_stop {p : Char → Bool} :
    ∀ (l r : List Char), (∀ c ∈ l, p c = true) →
    (∀ x, r.head? = some x → p x = false) →
    (l ++ r).takeWhile p = l := by
  intro l r hl hr
  induction l with
  | nil =>
    cases r with
    | nil => rfl
    | cons x t =>
      simp only [List.nil_append, List.takeWhile]
      rw [hr x rfl]
  | cons a as ih =>
    simp only [List.cons_append, List.takeWhile]
    rw [hl a (by simp)]
    simp only [List.cons.injEq, true_and]
    exact ih (fun c hc => hl c (by simp [hc]))

/-- A nonempty string has a nonempty character list. -/
theorem str_data_ne_nil {s : String} (h : s ≠ "") : s.data ≠ [] := by
  intro hd
  exact h (str_ext (by simp [hd]))

/-- The whole-string placeholder test recognizes `{{key}}`. -/
theorem singlePlaceholder_of (key : String) (h1 : key ≠ "")
    (h2 : ∀ c ∈ key.data, isWordChar c = true) :
    singlePlaceholder (placeholderOf key) = some key := by
  have hdata : (placeholderOf key).data =
      Char.ofNat 123 :: Char.ofNat 123 :: (key.data ++ [Char.ofNat 125, Char.ofNat 125]) := rfl
  have htw : (key.data ++ [Char.ofNat 125, Char.ofNat 125]).takeWhile isWordChar = key.data :=
    takeWhile_append_stop _ _ h2 (by intro x hx; cases hx; decide)
  simp only [singlePlaceholder, hdata, htw]
  rw [List.drop_left]
  simp [str_data_ne_nil h1]

/-- The scanner finds no placeholder at a non-brace character. -/
theorem placeholderKey_ne_open (c : Char) (rest : List Char) (hc : c ≠ Char.ofNat 123) :
    placeholderKey (c :: rest) = none := by
  cases rest with
  | nil => rfl
  | cons b t => simp [placeholderKey, hc]

/-- The scanner recognizes a placeholder at the head of the input. -/
theorem placeholderKey_at (key : String) (post : List Char) (h1 : key ≠ "")
    (h2 : ∀ c ∈ key.data, isWordChar c = true) :
    placeholderKey ((placeholderOf key).data ++ post) = some key := by
  have hdata : (placeholderOf key).data ++ post =
      Char.ofNat 123 :: Char.ofNat 123 ::
        (key.data ++ (Char.ofNat 125 :: Char.ofNat 125 :: post)) := by
    show (Char.ofNat 123 :: Char.ofNat 123 ::
      (key.data ++ [Char.ofNat 125, Char.ofNat 125])) ++ post = _
    simp
  have htw : (key.data ++ (Char.ofNat 125 :: Char.ofNat 125 :: post)).takeWhile isWordChar
      = key.data :=
    takeWhile_append_stop _ _ h2 (by intro x hx; cases hx; decide)
  rw [hdata]
  simp only [placeholderKey, htw]
  rw [List.drop_left]
  simp [str_data_ne_nil h1]

/-- The scanner substitutes a placeholder at the head of the input and
    continues after it. -/
theorem interpolateGo_placeholder (values : String → Option Json) (key : String)
    (post : List Char) (h1 : key ≠ "") (h2 : ∀ c ∈ key.data, isWordChar c = true) :
    interpolateGo values ((placeholderOf key).data ++ post) =
      (match values key with | none => "" | some v => jsToString v) ++
        interpolateGo values post := by
  have hcons : (placeholderOf key).data ++ post =
      Char.ofNat 123 :: (Char.ofNat 123 ::
        (key.data ++ [Char.ofNat 125, Char.ofNat 125]) ++ post) := by
    show (Char.ofNat 123 :: Char.ofNat 123 ::
      (key.data ++ [Char.ofNat 125, Char.ofNat 125])) ++ post = _
    simp
  conv_lhs => rw [hcons, interpolateGo]
  rw [← hcons, placeholderKey_at key post h1 h2]
  have hdrop : ((placeholderOf key).data ++ post).drop (key.length + 4) = post := by
    apply List.drop_left'
    show (Char.ofNat 123 :: Char.ofNat 123 ::
      (key.data ++ [Char.ofNat 125, Char.ofNat 125])).length = key.length + 4
    have hk : key.length = key.data.length := rfl
    simp only [List.length_cons, List.length_append, hk]
    simp
  dsimp only
  rw [hdrop]

/-- Appending to the empty string. -/
theorem str_empty_append (s : String) : "" ++ s = s :=
  str_ext (by simp [String.data_append])

/-- String append is associative. -/
theorem str_append_assoc (a b c : String) : a ++ b ++ c = a ++ (b ++ c) :=
  str_ext (by simp [String.data_append])

/-- Peeling one character off a string. -/
theorem str_mk_cons (c : Char) (cs : List Char) :
    String.mk (c :: cs) = String.singleton c ++ String.mk cs :=
  str_ext (by simp [String.data_append, String.singleton])

/-- The scanner copies a brace-free prefix verbatim and substitutes the
    following placeholder. -/
theorem interpolateGo_skip_append (values : String → Option Json) (key : String)
    (post : List Char) (h1 : key ≠ "") (h2 : ∀ c ∈ key.data, isWordChar c = true) :
    ∀ (pre : List Char), (∀ c ∈ pre, c ≠ Char.ofNat 123) →
    interpolateGo values (pre ++ (placeholderOf key).data ++ post) =
      String.mk pre ++
        ((match values key with | none => "" | some v => jsToString v) ++
          interpolateGo values post) := by
  intro pre
  induction pre with
  | nil =>
    intro _
    simp only [List.nil_append]
    rw [interpolateGo_placeholder values key post h1 h2]
    rw [show String.mk [] = "" from rfl, str_empty_append]
  | cons c cs ih =>
    intro hpre
    have hc : c ≠ Char.ofNat 123 := hpre c (by simp)
    have hrest : ∀ x ∈ cs, x ≠ Char.ofNat 123 := fun x hx => hpre x (by simp [hx])
    show interpolateGo values (c :: (cs ++ (placeholderOf key).data ++ post)) = _
    rw [interpolateGo, placeholderKey_ne_open c _ hc]
    dsimp only
    rw [ih hrest, str_mk_cons, str_append_assoc]

/-- `interpolate` on a brace-free prefix, a placeholder and a remainder. -/
theorem interpolate_decomp (values : String → Option Json) (pre key post : String)
    (hpre : ∀ c ∈ pre.data, c ≠ Char.ofNat 123) (h1 : key ≠ "")
    (h2 : ∀ c ∈ key.data, isWordChar c = true) :
    interpolate (pre ++ placeholderOf key ++ post) values =
      pre ++ ((match values key with | none => "" | some v => jsToString v) ++
        interpolate post values) := by
  unfold interpolate
  have hdata : (pre ++ placeholderOf key ++ post).data =
      pre.data ++ (placeholderOf key).data ++ post.data := by
    simp [String.data_append]
  rw [hdata]
  rw [interpolateGo_skip_append values key post.data h1 h2 pre.data hpre]

/-- Elementwise template interpolation is a `map`. -/
theorem interpolateTemplateItems_eq_map (items : List Json) (values : String → Option Json) :
    interpolateTemplateItems items values = items.map (fun j => interpolateTemplate j values) := by
  induction items with
  | nil => rfl
  | cons x xs ih => simp only [interpolateTemplateItems, List.map, ih]

/-- Fieldwise template interpolation is a `map` on the values. -/
theorem interpolateTemplateFields_eq_map (fields : List (String × Json))
    (values : String → Option Json) :
    interpolateTemplateFields fields values =
      fields.map (fun kv => (kv.1, interpolateTemplate kv.2 values)) := by
  induction fields with
  | nil => rfl
  | cons kv fs ih =>
    cases kv
    simp only [interpolateTemplateFields, List.map, ih]

/-- C9: HTTP request-template interpolation.  A string leaf that is exactly
    one `{{field}}` placeholder is replaced by the original typed value of
    the field (the empty string when the field is absent); every other
    string leaf receives in-place string substitution in which a
    placeholder becomes the field's `String(...)` form, absent fields
    becoming empty; arrays and objects are recursed into elementwise; and
    all non-string leaves are returned unchanged. -/
theorem http_template_interpolation :
    (∀ (key : String) (values : String → Option Json) (v : Json),
      key ≠ "" → (∀ c ∈ key.data, isWordChar c = true) → values key = some v →
      interpolateTemplate (.str (placeholderOf key)) values = v)
    ∧ (∀ (key : String) (values : String → Option Json),
      key ≠ "" → (∀ c ∈ key.data, isWordChar c = true) → values key = none →
      interpolateTemplate (.str (placeholderOf key)) values = .str "")
    ∧ (∀ (s : String) (values : String → Option Json), singlePlaceholder s = none →
      interpolateTemplate (.str s) values = .str (interpolate s values))
    ∧ (∀ (pre key post : String) (values : String → Option Json),
      (∀ c ∈ pre.data, c ≠ Char.ofNat 123) → key ≠ "" →
      (∀ c ∈ key.data, isWordChar c = true) →
      interpolate (pre ++ placeholderOf key ++ post) values =
        pre ++ ((match values key with | none => "" | some v => jsToString v) ++
          interpolate post values))
    ∧ (∀ (items : List Json) (values : String → Option Json),
      interpolateTemplate (.arr items) values =
        .arr (items.map (fun j => interpolateTemplate j values)))
    ∧ (∀ (fields : List (String × Json)) (values : String → Option Json),
      interpolateTemplate (.obj fields) values =
        .obj (fields.map (fun kv => (kv.1, interpolateTemplate kv.2 values))))
    ∧ (∀ (values : String → Option Json) (n : Int),
      interpolateTemplate (.num n) values = .num n)
    ∧ (∀ (values : String → Option Json) (b : Bool),
      interpolateTemplate (.bool b) values = .bool b)
    ∧ (∀ values : String → Option Json, interpolateTemplate .null values = .null) := by
  refine ⟨?_, ?_, ?_, ?_, ?_, ?_, fun _ _ => rfl, fun _ _ => rfl, fun _ => rfl⟩
  · intro key values v h1 h2 hv
    simp only [interpolateTemplate, singlePlaceholder_of key h1 h2, hv]
  · intro key values h1 h2 hv
    simp only [interpolateTemplate, singlePlaceholder_of key h1 h2, hv]
  · intro s values h
    simp only [interpolateTemplate, h]
  · intro pre key post values hpre h1 h2
    exact interpolate_decomp values pre key post hpre h1 h2
  · intro items values
    simp only [interpolateTemplate, interpolateTemplateItems_eq_map]
  · intro fields values
    simp only [interpolateTemplate, interpolateTemplateFields_eq_map]

/-- C9 witness: a numeric `temperature`, an absent `missing` field, and an
    embedded placeholder inside a longer string leaf. -/
theorem http_template_interpolation_witness :
    interpolateTemplate (.str (placeholderOf "temperature")) sampleValues = .num 0
    ∧ interpolateTemplate (.str (placeholderOf "missing")) sampleValues = .str ""
    ∧ interpolate ("t=" ++ placeholderOf "temperature" ++ "!") sampleValues =
        "t=" ++ ("0" ++ interpolate "!" sampleValues) :=
  ⟨http_template_interpolation.1 "temperature" sampleValues (.num 0)
     (by decide) (by decide) rfl,
   http_template_interpolation.2.1 "missing" sampleValues (by decide) (by decide) rfl,
   http_template_interpolation.2.2.2.1 "t=" "temperature" "!" sampleValues
     (by decide) (by decide) (by decide)⟩

end AgentCI
